import Mathlib

/-!
# opengl-learn: call-trace model of `main.cpp`

`main.cpp` computes nothing on its own: everything it does is a call into GLFW,
GLAD, OpenGL or the `Shader` class.  The embedding therefore represents each
routine of `main.cpp` by the ordered list of calls it issues (`List Call`),
together with the new value of the three global handles `VAO`, `VBO`, `EBO`
where the routine writes them.

What the outside world decides (whether start-up steps succeed, which names
`glGen*` hands out, the Escape key, window-close and resize events) is an
explicit parameter `Env`; every theorem quantifies over it.

Float literals are kept as the exact decimal value written in the source
(sign and hundredths); rounding to binary32 is not modelled.
-/

namespace OpenGLLearn

/-! ## Data model -/

/-- The enum `ShapeType` of `main.cpp`. -/
inductive ShapeType
  | TRIANGLE
  | TWO_TRIANGLES
  | RECTANGLE_WITH_EBO
  deriving DecidableEq, Repr

/-- A `GLuint` object name. -/
abbrev GLuint := Nat

/-- A float literal of the source: `pos h` is the literal with value `h / 100`,
`neg h` the literal with value `-(h / 100)`.  Every float literal of `main.cpp`
has at most two decimals.  `neg 0` is `-0.0f`, which differs from `0.0f`. -/
inductive GLfloat
  | pos (hundredths : Nat)
  | neg (hundredths : Nat)
  deriving DecidableEq, Repr

/-- The globals `GLuint VAO, VBO, EBO;`. -/
structure Globals where
  VAO : GLuint
  VBO : GLuint
  EBO : GLuint
  deriving DecidableEq, Repr

/-- Objects of static storage duration are zero-initialised. -/
def Globals.zero : Globals := ⟨0, 0, 0⟩

/-- Which global a `&VAO`, `&VBO` or `&EBO` argument points to. -/
inductive HandleVar
  | VAO
  | VBO
  | EBO
  deriving DecidableEq, Repr

/-- Buffer binding targets used by the program. -/
inductive BufferTarget
  | GL_ARRAY_BUFFER
  | GL_ELEMENT_ARRAY_BUFFER
  deriving DecidableEq, Repr

/-- Primitive modes used by the program. -/
inductive DrawMode
  | GL_TRIANGLES
  deriving DecidableEq, Repr

/-- Index types used by the program. -/
inductive IndexType
  | GL_UNSIGNED_SHORT
  | GL_UNSIGNED_INT
  deriving DecidableEq, Repr

/-- Width in bytes of one index of the given type (OpenGL: 16 and 32 bits). -/
def IndexType.bytes : IndexType → Nat
  | .GL_UNSIGNED_SHORT => 2
  | .GL_UNSIGNED_INT => 4

/-- The value of `sizeof(GLfloat)`: OpenGL fixes `GLfloat` at 32 bits. -/
def sizeofGLfloat : Nat := 4

/-- The value of `sizeof(GLushort)`: OpenGL fixes `GLushort` at 16 bits. -/
def sizeofGLushort : Nat := 2

/-- The value of `sizeof(GLuint)`: OpenGL fixes `GLuint` at 32 bits. -/
def sizeofGLuint : Nat := 4

/-- The local arrays handed to `glBufferData`, with their element type. -/
inductive Payload
  | floats (xs : List GLfloat)
  | ushorts (xs : List Nat)
  | uints (xs : List Nat)
  deriving DecidableEq, Repr

/-- The value of `sizeof(array)` for a local array. -/
def Payload.sizeof : Payload → Nat
  | .floats xs => xs.length * sizeofGLfloat
  | .ushorts xs => xs.length * sizeofGLushort
  | .uints xs => xs.length * sizeofGLuint

/-- Width in bytes of one element of the array. -/
def Payload.elemBytes : Payload → Nat
  | .floats _ => sizeofGLfloat
  | .ushorts _ => sizeofGLushort
  | .uints _ => sizeofGLuint

/-- The integer elements of an index array (none for a float array). -/
def Payload.indices : Payload → List Nat
  | .floats _ => []
  | .ushorts xs => xs
  | .uints xs => xs

/-- The routines defined in `main.cpp` (other than `main`). -/
inductive Routine
  | setupTriangle
  | setupTwoTriangles
  | setupRectangleWithEBO
  | renderTriangle
  | renderTwoTriangles
  | renderRectangleWithEBO
  | cleanup
  | processInput
  | framebuffer_size_callback
  deriving DecidableEq, Repr

/-- Output streams written by `main`. -/
inductive Stream
  | cerr
  | cout
  deriving DecidableEq, Repr

/-- Window hints set by `main`. -/
inductive Hint
  | GLFW_CONTEXT_VERSION_MAJOR (v : Nat)
  | GLFW_CONTEXT_VERSION_MINOR (v : Nat)
  | GLFW_OPENGL_PROFILE_CORE
  | GLFW_OPENGL_FORWARD_COMPAT_TRUE
  deriving DecidableEq, Repr

/-- Keys polled by the program. -/
inductive Key
  | GLFW_KEY_ESCAPE
  deriving DecidableEq, Repr

/-- Results of `glfwGetKey`. -/
inductive KeyState
  | GLFW_RELEASE
  | GLFW_PRESS
  deriving DecidableEq, Repr

/-- Component types passed to `glVertexAttribPointer`. -/
inductive AttribType
  | GL_FLOAT
  deriving DecidableEq, Repr

/-- Usage hints passed to `glBufferData`. -/
inductive Usage
  | GL_STATIC_DRAW
  deriving DecidableEq, Repr

/-- Masks passed to `glClear`. -/
inductive ClearMask
  | GL_COLOR_BUFFER_BIT
  deriving DecidableEq, Repr

/-- One observable action of the program.  `enter r` records that control
enters routine `r` of `main.cpp`; every other constructor is a call into a
library, with its arguments and, where the program depends on it, its result
(`ok` is `true` for a non-zero, non-null result; the `name` of a `glGen*` or
`glDelete*` call is the value held by the pointed-to global after, respectively
at, the call). -/
inductive Call
  | enter (r : Routine)
  | print (s : Stream) (msg : String)
  | glfwInit (ok : Bool)
  | glfwWindowHint (h : Hint)
  | glfwCreateWindow (width height : Nat) (title : String) (ok : Bool)
  | glfwTerminate
  | glfwMakeContextCurrent
  | glfwSetFramebufferSizeCallback (callback : Routine)
  | gladLoadGLLoader (ok : Bool)
  | shaderConstruct (vertexPath fragmentPath : String)
  | shaderUse
  | shaderSetFloat (name : String) (value : GLfloat)
  | glfwWindowShouldClose (result : Bool)
  | glfwGetKey (key : Key) (result : KeyState)
  | glfwSetWindowShouldClose (value : Bool)
  | glClearColor (r g b a : GLfloat)
  | glClear (mask : ClearMask)
  | glfwSwapBuffers
  | glfwPollEvents
  | glViewport (x y : Int) (width height : Int)
  | glGenVertexArrays (n : Nat) (var : HandleVar) (name : GLuint)
  | glGenBuffers (n : Nat) (var : HandleVar) (name : GLuint)
  | glBindVertexArray (name : GLuint)
  | glBindBuffer (target : BufferTarget) (name : GLuint)
  | glBufferData (target : BufferTarget) (size : Nat) (data : Payload) (usage : Usage)
  | glEnableVertexAttribArray (index : Nat)
  | glVertexAttribPointer (index size : Nat) (type : AttribType) (normalized : Bool)
      (stride offset : Nat)
  | glDrawArrays (mode : DrawMode) (first count : Nat)
  | glDrawElements (mode : DrawMode) (count : Nat) (type : IndexType) (offset : Nat)
  | glDeleteVertexArrays (n : Nat) (var : HandleVar) (name : GLuint)
  | glDeleteBuffers (n : Nat) (var : HandleVar) (name : GLuint)
  | glDeleteProgram (program : GLuint)
  | glfwDestroyWindow
  deriving Repr

/-- What the outside world decides during one execution of `main`. -/
structure Env where
  /-- Whether `glfwInit()` returns non-zero. -/
  glfwInitOk : Bool
  /-- The program was compiled with `__APPLE__` defined. -/
  apple : Bool
  /-- Whether `glfwCreateWindow` returns a non-null window. -/
  windowCreated : Bool
  /-- Whether `gladLoadGLLoader` returns non-zero. -/
  gladLoaded : Bool
  /-- The field `programID` of the constructed `Shader`. -/
  programID : GLuint
  /-- The name written by the `n`-th `glGen*` call of the setup routine. -/
  genName : Nat → GLuint
  /-- The close flag of the window when the loop condition is first tested. -/
  closeAtStart : Bool
  /-- Whether `glfwGetKey(window, GLFW_KEY_ESCAPE) == GLFW_PRESS` in frame `k`. -/
  escapePressed : Nat → Bool
  /-- Whether `glfwPollEvents` of frame `k` delivers a window-close event. -/
  closeRequested : Nat → Bool
  /-- The framebuffer sizes `(width, height)` that `glfwPollEvents` of frame `k`
  reports to the registered resize callback, in order. -/
  resizes : Nat → List (Int × Int)

/-! ## Setup routines -/

/-- Routine `void setupTriangle()`; `gen n` is the name produced by its `n`-th
`glGen*` call.  Returns the globals after the routine and the calls issued. -/
def setupTriangle (gen : Nat → GLuint) (g : Globals) : Globals × List Call :=
  let vertices : List GLfloat :=
    [ .pos 50, .neg 50, .pos 0,   .pos 100, .pos 0, .pos 0,
      .neg 50, .neg 50, .pos 0,   .pos 0, .pos 100, .pos 0,
      .pos 0, .pos 50, .pos 0,    .pos 0, .pos 0, .pos 100 ]
  let g := { g with VAO := gen 0 }
  let g := { g with VBO := gen 1 }
  (g,
   [ .enter .setupTriangle,
     .glGenVertexArrays 1 .VAO g.VAO,
     .glGenBuffers 1 .VBO g.VBO,
     .glBindVertexArray g.VAO,
     .glBindBuffer .GL_ARRAY_BUFFER g.VBO,
     .glBufferData .GL_ARRAY_BUFFER (Payload.sizeof (.floats vertices)) (.floats vertices)
       .GL_STATIC_DRAW,
     .glEnableVertexAttribArray 0,
     .glVertexAttribPointer 0 3 .GL_FLOAT false (6 * sizeofGLfloat) 0,
     .glEnableVertexAttribArray 1,
     .glVertexAttribPointer 1 3 .GL_FLOAT false (6 * sizeofGLfloat) (3 * sizeofGLfloat),
     .glBindBuffer .GL_ARRAY_BUFFER 0,
     .glBindVertexArray 0 ])

/-- Routine `void setupTwoTriangles()`. -/
def setupTwoTriangles (gen : Nat → GLuint) (g : Globals) : Globals × List Call :=
  let vertices : List GLfloat :=
    [ .neg 90, .neg 50, .pos 0,
      .neg 0, .neg 50, .pos 0,
      .neg 45, .pos 50, .pos 0,
      .pos 90, .neg 50, .pos 0,
      .pos 45, .pos 50, .pos 0 ]
  let g := { g with VAO := gen 0 }
  let g := { g with VBO := gen 1 }
  let indices : List Nat :=
    [ 0, 1, 2,
      1, 3, 4 ]
  let g' := { g with EBO := gen 2 }
  (g',
   [ .enter .setupTwoTriangles,
     .glGenVertexArrays 1 .VAO g.VAO,
     .glGenBuffers 1 .VBO g.VBO,
     .glBindVertexArray g.VAO,
     .glBindBuffer .GL_ARRAY_BUFFER g.VBO,
     .glBufferData .GL_ARRAY_BUFFER (Payload.sizeof (.floats vertices)) (.floats vertices)
       .GL_STATIC_DRAW,
     .glEnableVertexAttribArray 0,
     .glVertexAttribPointer 0 3 .GL_FLOAT false (3 * sizeofGLfloat) 0,
     .glGenBuffers 1 .EBO g'.EBO,
     .glBindBuffer .GL_ELEMENT_ARRAY_BUFFER g'.EBO,
     .glBufferData .GL_ELEMENT_ARRAY_BUFFER (Payload.sizeof (.ushorts indices))
       (.ushorts indices) .GL_STATIC_DRAW,
     .glBindBuffer .GL_ARRAY_BUFFER 0,
     .glBindVertexArray 0 ])

/-- Routine `void setupRectangleWithEBO()`. -/
def setupRectangleWithEBO (gen : Nat → GLuint) (g : Globals) : Globals × List Call :=
  let vertices : List GLfloat :=
    [ .pos 50, .pos 50, .pos 0,
      .pos 50, .neg 50, .pos 0,
      .neg 50, .neg 50, .pos 0,
      .neg 50, .pos 50, .pos 0 ]
  let indices : List Nat :=
    [ 0, 1, 3,
      1, 2, 3 ]
  let g := { g with VAO := gen 0 }
  let g := { g with VBO := gen 1 }
  let g := { g with EBO := gen 2 }
  (g,
   [ .enter .setupRectangleWithEBO,
     .glGenVertexArrays 1 .VAO g.VAO,
     .glGenBuffers 1 .VBO g.VBO,
     .glGenBuffers 1 .EBO g.EBO,
     .glBindVertexArray g.VAO,
     .glBindBuffer .GL_ARRAY_BUFFER g.VBO,
     .glBufferData .GL_ARRAY_BUFFER (Payload.sizeof (.floats vertices)) (.floats vertices)
       .GL_STATIC_DRAW,
     .glBindBuffer .GL_ELEMENT_ARRAY_BUFFER g.EBO,
     .glBufferData .GL_ELEMENT_ARRAY_BUFFER (Payload.sizeof (.uints indices))
       (.uints indices) .GL_STATIC_DRAW,
     .glEnableVertexAttribArray 0,
     .glVertexAttribPointer 0 3 .GL_FLOAT false (3 * sizeofGLfloat) 0,
     .glBindBuffer .GL_ARRAY_BUFFER 0,
     .glBindVertexArray 0 ])

/-- The first `switch (currentShape)` of `main`. -/
def setup (currentShape : ShapeType) (gen : Nat → GLuint) (g : Globals) :
    Globals × List Call :=
  match currentShape with
  | .TRIANGLE => setupTriangle gen g
  | .TWO_TRIANGLES => setupTwoTriangles gen g
  | .RECTANGLE_WITH_EBO => setupRectangleWithEBO gen g

/-! ## Render routines -/

/-- Routine `void renderTriangle()`. -/
def renderTriangle (g : Globals) : List Call :=
  [ .enter .renderTriangle,
    .glBindVertexArray g.VAO,
    .glDrawArrays .GL_TRIANGLES 0 3,
    .glBindVertexArray 0 ]

/-- Routine `void renderTwoTriangles()`. -/
def renderTwoTriangles (g : Globals) : List Call :=
  [ .enter .renderTwoTriangles,
    .glBindVertexArray g.VAO,
    .glDrawElements .GL_TRIANGLES 6 .GL_UNSIGNED_SHORT 0,
    .glBindVertexArray 0 ]

/-- Routine `void renderRectangleWithEBO()`. -/
def renderRectangleWithEBO (g : Globals) : List Call :=
  [ .enter .renderRectangleWithEBO,
    .glBindVertexArray g.VAO,
    .glDrawElements .GL_TRIANGLES 6 .GL_UNSIGNED_INT 0,
    .glBindVertexArray 0 ]

/-- The `switch (currentShape)` inside the render loop. -/
def render (currentShape : ShapeType) (g : Globals) : List Call :=
  match currentShape with
  | .TRIANGLE => renderTriangle g
  | .TWO_TRIANGLES => renderTwoTriangles g
  | .RECTANGLE_WITH_EBO => renderRectangleWithEBO g

/-! ## Cleanup, input, resize callback -/

/-- Routine `void cleanup(GLuint shaderProgram)`. -/
def cleanup (shaderProgram : GLuint) (g : Globals) : List Call :=
  [ .enter .cleanup,
    .glDeleteVertexArrays 1 .VAO g.VAO,
    .glDeleteBuffers 1 .VBO g.VBO ]
  ++ (if g.EBO ≠ 0 then [ .glDeleteBuffers 1 .EBO g.EBO ] else [])
  ++ [ .glDeleteProgram shaderProgram ]

/-- Routine `void processInput(GLFWwindow* window)`: `escapePressed` is what
`glfwGetKey` reports, `shouldClose` the close flag of the window on entry.
Returns the close flag on exit and the calls issued. -/
def processInput (escapePressed : Bool) (shouldClose : Bool) : Bool × List Call :=
  if escapePressed then
    (true, [ .enter .processInput, .glfwGetKey .GLFW_KEY_ESCAPE .GLFW_PRESS,
             .glfwSetWindowShouldClose true ])
  else
    (shouldClose, [ .enter .processInput, .glfwGetKey .GLFW_KEY_ESCAPE .GLFW_RELEASE ])

/-- Routine `void framebuffer_size_callback(GLFWwindow*, int width, int height)`. -/
def framebuffer_size_callback (width height : Int) : List Call :=
  [ .enter .framebuffer_size_callback, .glViewport 0 0 width height ]

/-- The callback invocations made by GLFW for a list of reported sizes. -/
def resizeCallbacks : List (Int × Int) → List Call
  | [] => []
  | (w, h) :: rest => framebuffer_size_callback w h ++ resizeCallbacks rest

/-! ## The render loop and `main` -/

/-- One execution of the body of `while (!glfwWindowShouldClose(window))`, as
frame number `k`.  Returns the close flag after the body and the calls issued. -/
def frame (env : Env) (currentShape : ShapeType) (g : Globals) (k : Nat)
    (shouldClose : Bool) : Bool × List Call :=
  let input := processInput (env.escapePressed k) shouldClose
  (input.1 || env.closeRequested k,
   input.2
   ++ [ .glClearColor (.pos 7) (.pos 13) (.pos 17) (.pos 100),
        .glClear .GL_COLOR_BUFFER_BIT,
        .shaderUse,
        .shaderSetFloat "xOffset" (.pos 50) ]
   ++ render currentShape g
   ++ [ .glfwSwapBuffers, .glfwPollEvents ]
   ++ resizeCallbacks (env.resizes k))

/-- The loop `while (!glfwWindowShouldClose(window)) { ... }`, starting at frame `k`
with the given close flag and running at most `fuel` frames.  The first
component says whether the loop was left; when it is `false` the calls are
those issued up to the point where the fuel ran out. -/
def renderLoop (env : Env) (currentShape : ShapeType) (g : Globals) :
    Nat → Nat → Bool → Bool × List Call
  | _, _, true => (true, [ .glfwWindowShouldClose true ])
  | 0, _, false => (false, [ .glfwWindowShouldClose false ])
  | fuel + 1, k, false =>
      let body := frame env currentShape g k false
      let rest := renderLoop env currentShape g fuel (k + 1) body.1
      (rest.1, .glfwWindowShouldClose false :: (body.2 ++ rest.2))

/-- An execution of `main`: the calls issued and the value returned (`none`
while `main` has not returned). -/
structure Run where
  calls : List Call
  exit : Option Int

/-- The calls of `main` from its start up to and including a successful
`gladLoadGLLoader`. -/
def startupCalls (env : Env) : List Call :=
  [ .glfwInit true,
    .glfwWindowHint (.GLFW_CONTEXT_VERSION_MAJOR 3),
    .glfwWindowHint (.GLFW_CONTEXT_VERSION_MINOR 3),
    .glfwWindowHint .GLFW_OPENGL_PROFILE_CORE ]
  ++ (if env.apple then [ .glfwWindowHint .GLFW_OPENGL_FORWARD_COMPAT_TRUE ] else [])
  ++ [ .glfwCreateWindow 800 600 "Hello Tatsulok" true,
       .glfwMakeContextCurrent,
       .glfwSetFramebufferSizeCallback .framebuffer_size_callback,
       .gladLoadGLLoader true ]

/-- The body of `int main()` with the local `currentShape` as a parameter,
run for at most `fuel` frames. -/
def mainWith (currentShape : ShapeType) (env : Env) (fuel : Nat) : Run :=
  if !env.glfwInitOk then
    ⟨[ .glfwInit false, .print .cerr "Failed to initialize GLFW" ], some (-1)⟩
  else
    let hints : List Call :=
      [ .glfwInit true,
        .glfwWindowHint (.GLFW_CONTEXT_VERSION_MAJOR 3),
        .glfwWindowHint (.GLFW_CONTEXT_VERSION_MINOR 3),
        .glfwWindowHint .GLFW_OPENGL_PROFILE_CORE ]
      ++ (if env.apple then [ .glfwWindowHint .GLFW_OPENGL_FORWARD_COMPAT_TRUE ] else [])
    if !env.windowCreated then
      ⟨hints ++ [ .glfwCreateWindow 800 600 "Hello Tatsulok" false,
                  .print .cout "Failed to create GLFW window",
                  .glfwTerminate ], some (-1)⟩
    else
      let window : List Call :=
        hints ++ [ .glfwCreateWindow 800 600 "Hello Tatsulok" true,
                   .glfwMakeContextCurrent,
                   .glfwSetFramebufferSizeCallback .framebuffer_size_callback ]
      if !env.gladLoaded then
        ⟨window ++ [ .gladLoadGLLoader false, .print .cout "Failed to initialize GLAD" ],
         some (-1)⟩
      else
        let shader : List Call :=
          window ++ [ .gladLoadGLLoader true,
                      .shaderConstruct "shader_vs.glsl" "shader_fs.glsl" ]
        let s := setup currentShape env.genName Globals.zero
        let loop := renderLoop env currentShape s.1 fuel 0 env.closeAtStart
        if loop.1 then
          ⟨shader ++ s.2 ++ loop.2 ++ cleanup env.programID s.1
             ++ [ .glfwDestroyWindow, .glfwTerminate ], some 0⟩
        else
          ⟨shader ++ s.2 ++ loop.2, none⟩

/-- Routine `int main()`: `ShapeType currentShape = TRIANGLE;`. -/
def main (env : Env) (fuel : Nat) : Run :=
  mainWith .TRIANGLE env fuel

/-! ## Observations on call lists -/

/-- Whether a call is a draw call. -/
def Call.isDraw : Call → Bool
  | .glDrawArrays _ _ _ => true
  | .glDrawElements _ _ _ _ => true
  | _ => false

/-- Whether a call is the entry into routine `r`. -/
def Call.isEnter (r : Routine) : Call → Bool
  | .enter r' => decide (r' = r)
  | _ => false

/-! ## The part of the OpenGL context that setup and render go through

Buffer uploads, attribute pointers and draws act on whatever is bound when they
are issued.  `observe` replays a call list against the binding points the
program uses and reports every upload, attribute declaration and draw together
with the objects it acted on.  The element-array binding is stored per vertex
array object, as OpenGL specifies. -/

/-- The binding points used by the program. -/
structure Bindings where
  vertexArray : GLuint
  arrayBuffer : GLuint
  elementBuffer : GLuint → GLuint

/-- The buffer bound to a target. -/
def Bindings.bound (b : Bindings) : BufferTarget → GLuint
  | .GL_ARRAY_BUFFER => b.arrayBuffer
  | .GL_ELEMENT_ARRAY_BUFFER => b.elementBuffer b.vertexArray

/-- The effect of one call on the binding points. -/
def Bindings.step (b : Bindings) : Call → Bindings
  | .glBindVertexArray n => { b with vertexArray := n }
  | .glBindBuffer .GL_ARRAY_BUFFER n => { b with arrayBuffer := n }
  | .glBindBuffer .GL_ELEMENT_ARRAY_BUFFER n =>
      { b with elementBuffer := fun v => if v = b.vertexArray then n else b.elementBuffer v }
  | _ => b

/-- An upload, attribute declaration or draw, with the objects it acts on. -/
inductive Obs
  | upload (target : BufferTarget) (buffer : GLuint) (size : Nat) (data : Payload)
  | enable (vertexArray : GLuint) (index : Nat)
  | pointer (vertexArray buffer : GLuint) (index size stride offset : Nat)
  | drawArrays (vertexArray : GLuint) (mode : DrawMode) (first count : Nat)
  | drawElements (vertexArray indexBuffer : GLuint) (mode : DrawMode) (count : Nat)
      (type : IndexType) (offset : Nat)
  deriving DecidableEq, Repr

/-- What a call does under the given bindings, if it is one of the observed kinds. -/
def Obs.ofCall (b : Bindings) : Call → Option Obs
  | .glBufferData t size data _ => some (.upload t (b.bound t) size data)
  | .glEnableVertexAttribArray i => some (.enable b.vertexArray i)
  | .glVertexAttribPointer i size _ _ stride offset =>
      some (.pointer b.vertexArray b.arrayBuffer i size stride offset)
  | .glDrawArrays m first count => some (.drawArrays b.vertexArray m first count)
  | .glDrawElements m count t offset =>
      some (.drawElements b.vertexArray (b.bound .GL_ELEMENT_ARRAY_BUFFER) m count t offset)
  | _ => none

/-- Replays `calls` from bindings `b`. -/
def observe : Bindings → List Call → List Obs
  | _, [] => []
  | b, c :: cs =>
      match Obs.ofCall b c with
      | some o => o :: observe (b.step c) cs
      | none => observe (b.step c) cs

/-- The uploads among the observations: target, buffer, byte size, data. -/
def uploads : List Obs → List (BufferTarget × GLuint × Nat × Payload)
  | [] => []
  | .upload t buf size data :: rest => (t, buf, size, data) :: uploads rest
  | _ :: rest => uploads rest

/-- The index values uploaded through `GL_ELEMENT_ARRAY_BUFFER`, in order. -/
def uploadedIndices : List Obs → List Nat
  | [] => []
  | .upload .GL_ELEMENT_ARRAY_BUFFER _ _ data :: rest => data.indices ++ uploadedIndices rest
  | _ :: rest => uploadedIndices rest

/-- The number of bytes uploaded through `GL_ARRAY_BUFFER`. -/
def uploadedVertexBytes : List Obs → Nat
  | [] => 0
  | .upload .GL_ARRAY_BUFFER _ size _ :: rest => size + uploadedVertexBytes rest
  | _ :: rest => uploadedVertexBytes rest

/-- The number of bytes uploaded through `GL_ELEMENT_ARRAY_BUFFER`. -/
def uploadedIndexBytes : List Obs → Nat
  | [] => 0
  | .upload .GL_ELEMENT_ARRAY_BUFFER _ size _ :: rest => size + uploadedIndexBytes rest
  | _ :: rest => uploadedIndexBytes rest

/-- The draws among the observations. -/
def drawsOf : List Obs → List Obs
  | [] => []
  | .drawArrays va m first count :: rest => .drawArrays va m first count :: drawsOf rest
  | .drawElements va ib m count t offset :: rest =>
      .drawElements va ib m count t offset :: drawsOf rest
  | _ :: rest => drawsOf rest

/-- For every attribute pointer declared: the vertex array it was declared on
and the buffer it reads from. -/
def pointerSources : List Obs → List (GLuint × GLuint)
  | [] => []
  | .pointer va buf _ _ _ _ :: rest => (va, buf) :: pointerSources rest
  | _ :: rest => pointerSources rest

/-- For every upload through `GL_ELEMENT_ARRAY_BUFFER`: the buffer written and
the width in bytes of one uploaded element. -/
def indexUploads : List Obs → List (GLuint × Nat)
  | [] => []
  | .upload .GL_ELEMENT_ARRAY_BUFFER buf _ data :: rest =>
      (buf, data.elemBytes) :: indexUploads rest
  | _ :: rest => indexUploads rest

/-- For every upload through `GL_ARRAY_BUFFER`: the buffer written. -/
def vertexUploads : List Obs → List GLuint
  | [] => []
  | .upload .GL_ARRAY_BUFFER buf _ _ :: rest => buf :: vertexUploads rest
  | _ :: rest => vertexUploads rest

/-- An attribute declaration: location, component count, stride and offset in bytes. -/
structure Attrib where
  index : Nat
  size : Nat
  stride : Nat
  offset : Nat
  deriving DecidableEq, Repr

/-- The locations enabled by `glEnableVertexAttribArray`. -/
def enabledIndices : List Obs → List Nat
  | [] => []
  | .enable _ i :: rest => i :: enabledIndices rest
  | _ :: rest => enabledIndices rest

/-- The attribute pointers declared, in order. -/
def declaredAttribs : List Obs → List Attrib
  | [] => []
  | .pointer _ _ i size stride offset :: rest => ⟨i, size, stride, offset⟩ :: declaredAttribs rest
  | _ :: rest => declaredAttribs rest

/-- The declared attributes whose location is enabled. -/
def enabledAttribs (obs : List Obs) : List Attrib :=
  (declaredAttribs obs).filter (fun a => decide (a.index ∈ enabledIndices obs))

/-- The number of floats one vertex occupies according to the enabled attributes. -/
def floatsPerVertex (obs : List Obs) : Nat :=
  ((enabledAttribs obs).map Attrib.size).sum

/-- The number of whole vertices in the uploaded vertex data. -/
def vertexCount (obs : List Obs) : Nat :=
  uploadedVertexBytes obs / (floatsPerVertex obs * sizeofGLfloat)

/-- Two attributes occupy disjoint byte ranges inside a vertex. -/
def Attrib.disjoint (a b : Attrib) : Prop :=
  a.offset + a.size * sizeofGLfloat ≤ b.offset ∨ b.offset + b.size * sizeofGLfloat ≤ a.offset

/-- The vertex indices that occur both in the first triple and in the second
triple of an index list. -/
def sharedVertices (indices : List Nat) : List Nat :=
  ((indices.take 3).filter (fun v => decide (v ∈ (indices.drop 3).take 3))).dedup

/-- A generator of object names that never yields zero. -/
def sampleGen : Nat → GLuint := fun n => n + 1

/-- The bindings of a fresh context: nothing is bound. -/
def Bindings.fresh : Bindings := ⟨0, 0, fun _ => 0⟩

/-! ## Observations on the render loop -/

/-- The close flag of the window at the `n`-th test of the loop condition
(counting from 0), as long as the loop is still running at that test: the flag
the window starts with, raised by Escape in `processInput` or by a close event
in `glfwPollEvents` of any earlier frame.  `false` is the state Running of the
frame loop, `true` the state Closing. -/
def closeFlag (env : Env) : Nat → Bool
  | 0 => env.closeAtStart
  | k + 1 => closeFlag env k || env.escapePressed k || env.closeRequested k

/-- The calls `f k ++ f (k + 1) ++ ...` of `n` consecutive frames starting at `k`. -/
def framesFrom (f : Nat → List Call) : Nat → Nat → List Call
  | _, 0 => []
  | k, n + 1 => f k ++ framesFrom f (k + 1) n

/-- The render routine that belongs to a shape. -/
def renderRoutine : ShapeType → Routine
  | .TRIANGLE => .renderTriangle
  | .TWO_TRIANGLES => .renderTwoTriangles
  | .RECTANGLE_WITH_EBO => .renderRectangleWithEBO

/-- The draw call that belongs to a shape. -/
def drawCall : ShapeType → Call
  | .TRIANGLE => .glDrawArrays .GL_TRIANGLES 0 3
  | .TWO_TRIANGLES => .glDrawElements .GL_TRIANGLES 6 .GL_UNSIGNED_SHORT 0
  | .RECTANGLE_WITH_EBO => .glDrawElements .GL_TRIANGLES 6 .GL_UNSIGNED_INT 0

/-- The actions of loop iteration `k` as the specification lists them:
(1) process input, which polls Escape and raises the close flag when it is
pressed; (2) set the clear colour (0.07, 0.13, 0.17, 1.0) and clear the colour
buffer; (3) activate the shader and set the float uniform "xOffset" to 0.5;
(4) the render routine of the configured shape, once; (5) swap buffers, then
poll events, during which GLFW runs the resize callback for every reported
size. -/
def frameActions (env : Env) (currentShape : ShapeType) (g : Globals) (k : Nat) :
    List Call :=
  [ .enter .processInput,
    .glfwGetKey .GLFW_KEY_ESCAPE (if env.escapePressed k then .GLFW_PRESS else .GLFW_RELEASE) ]
  ++ (if env.escapePressed k then [ .glfwSetWindowShouldClose true ] else [])
  ++ [ .glClearColor (.pos 7) (.pos 13) (.pos 17) (.pos 100),
       .glClear .GL_COLOR_BUFFER_BIT ]
  ++ [ .shaderUse,
       .shaderSetFloat "xOffset" (.pos 50) ]
  ++ [ .enter (renderRoutine currentShape),
       .glBindVertexArray g.VAO,
       drawCall currentShape,
       .glBindVertexArray 0 ]
  ++ [ .glfwSwapBuffers,
       .glfwPollEvents ]
  ++ resizeCallbacks (env.resizes k)

/-- Whether a call is the entry into a setup routine, a render routine or `cleanup`. -/
def Call.isLifecycle : Call → Bool
  | .enter .setupTriangle => true
  | .enter .setupTwoTriangles => true
  | .enter .setupRectangleWithEBO => true
  | .enter .renderTriangle => true
  | .enter .renderTwoTriangles => true
  | .enter .renderRectangleWithEBO => true
  | .enter .cleanup => true
  | _ => false

/-- Whether a call presents a frame. -/
def Call.isSwap : Call → Bool
  | .glfwSwapBuffers => true
  | _ => false

/-- Whether a call belongs to the start-up part of `main`, up to the loading of
the GL functions, including what a failing start-up step prints and tears down. -/
def Call.isStartupStep : Call → Bool
  | .glfwInit _ => true
  | .print _ _ => true
  | .glfwWindowHint _ => true
  | .glfwCreateWindow _ _ _ _ => true
  | .glfwTerminate => true
  | .glfwMakeContextCurrent => true
  | .glfwSetFramebufferSizeCallback _ => true
  | .gladLoadGLLoader _ => true
  | _ => false

/-- An environment in which start-up succeeds and Escape is pressed in frame 2. -/
def escapeAtTwo : Env where
  glfwInitOk := true
  apple := false
  windowCreated := true
  gladLoaded := true
  programID := 3
  genName := sampleGen
  closeAtStart := false
  escapePressed := fun k => decide (k = 2)
  closeRequested := fun _ => false
  resizes := fun k => if k = 1 then [(1024, 768)] else []

/-- An environment in which start-up succeeds and nobody ever asks to close. -/
def neverClose : Env where
  glfwInitOk := true
  apple := false
  windowCreated := true
  gladLoaded := true
  programID := 3
  genName := sampleGen
  closeAtStart := false
  escapePressed := fun _ => false
  closeRequested := fun _ => false
  resizes := fun _ => []

/-! ## What the setup routines leave in the context -/

/-- The observations of `setupTriangle`. -/
def obsTriangle (gen : Nat → GLuint) : List Obs :=
  [ .upload .GL_ARRAY_BUFFER (gen 1) 72
      (.floats [ .pos 50, .neg 50, .pos 0, .pos 100, .pos 0, .pos 0,
                 .neg 50, .neg 50, .pos 0, .pos 0, .pos 100, .pos 0,
                 .pos 0, .pos 50, .pos 0, .pos 0, .pos 0, .pos 100 ]),
    .enable (gen 0) 0,
    .pointer (gen 0) (gen 1) 0 3 24 0,
    .enable (gen 0) 1,
    .pointer (gen 0) (gen 1) 1 3 24 12 ]

/-- The observations of `setupTwoTriangles`. -/
def obsTwoTriangles (gen : Nat → GLuint) : List Obs :=
  [ .upload .GL_ARRAY_BUFFER (gen 1) 60
      (.floats [ .neg 90, .neg 50, .pos 0, .neg 0, .neg 50, .pos 0, .neg 45, .pos 50,
                 .pos 0, .pos 90, .neg 50, .pos 0, .pos 45, .pos 50, .pos 0 ]),
    .enable (gen 0) 0,
    .pointer (gen 0) (gen 1) 0 3 12 0,
    .upload .GL_ELEMENT_ARRAY_BUFFER (gen 2) 12 (.ushorts [0, 1, 2, 1, 3, 4]) ]

/-- The observations of `setupRectangleWithEBO`. -/
def obsRectangle (gen : Nat → GLuint) : List Obs :=
  [ .upload .GL_ARRAY_BUFFER (gen 1) 48
      (.floats [ .pos 50, .pos 50, .pos 0, .pos 50, .neg 50, .pos 0,
                 .neg 50, .neg 50, .pos 0, .neg 50, .pos 50, .pos 0 ]),
    .upload .GL_ELEMENT_ARRAY_BUFFER (gen 2) 24 (.uints [0, 1, 3, 1, 2, 3]),
    .enable (gen 0) 0,
    .pointer (gen 0) (gen 1) 0 3 12 0 ]

theorem observe_setupTriangle (gen : Nat → GLuint) (g : Globals) (b : Bindings) :
    observe b (setupTriangle gen g).2 = obsTriangle gen := by
  simp [setupTriangle, observe, Obs.ofCall, Bindings.step, Bindings.bound,
    Payload.sizeof, sizeofGLfloat, obsTriangle]

theorem observe_setupTwoTriangles (gen : Nat → GLuint) (g : Globals) (b : Bindings) :
    observe b (setupTwoTriangles gen g).2 = obsTwoTriangles gen := by
  simp [setupTwoTriangles, observe, Obs.ofCall, Bindings.step, Bindings.bound,
    Payload.sizeof, sizeofGLfloat, sizeofGLushort, obsTwoTriangles]

theorem observe_setupRectangleWithEBO (gen : Nat → GLuint) (g : Globals) (b : Bindings) :
    observe b (setupRectangleWithEBO gen g).2 = obsRectangle gen := by
  simp [setupRectangleWithEBO, observe, Obs.ofCall, Bindings.step, Bindings.bound,
    Payload.sizeof, sizeofGLfloat, sizeofGLuint, obsRectangle]

theorem enabledAttribs_triangle (gen : Nat → GLuint) :
    enabledAttribs (obsTriangle gen) = [⟨0, 3, 24, 0⟩, ⟨1, 3, 24, 12⟩] := by
  simp [obsTriangle, enabledAttribs, declaredAttribs, enabledIndices]

theorem enabledAttribs_twoTriangles (gen : Nat → GLuint) :
    enabledAttribs (obsTwoTriangles gen) = [⟨0, 3, 12, 0⟩] := by
  simp [obsTwoTriangles, enabledAttribs, declaredAttribs, enabledIndices]

theorem enabledAttribs_rectangle (gen : Nat → GLuint) :
    enabledAttribs (obsRectangle gen) = [⟨0, 3, 12, 0⟩] := by
  simp [obsRectangle, enabledAttribs, declaredAttribs, enabledIndices]

theorem vertexCount_triangle (gen : Nat → GLuint) : vertexCount (obsTriangle gen) = 3 := by
  simp [vertexCount, floatsPerVertex, enabledAttribs_triangle, sizeofGLfloat]
  simp [obsTriangle, uploadedVertexBytes]

theorem vertexCount_twoTriangles (gen : Nat → GLuint) :
    vertexCount (obsTwoTriangles gen) = 5 := by
  simp [vertexCount, floatsPerVertex, enabledAttribs_twoTriangles, sizeofGLfloat]
  simp [obsTwoTriangles, uploadedVertexBytes]

theorem vertexCount_rectangle (gen : Nat → GLuint) : vertexCount (obsRectangle gen) = 4 := by
  simp [vertexCount, floatsPerVertex, enabledAttribs_rectangle, sizeofGLfloat]
  simp [obsRectangle, uploadedVertexBytes]

/-! ## Lemmas on the render loop -/

theorem closeFlag_mono (env : Env) (k : Nat) (h : closeFlag env k = true) :
    ∀ n, closeFlag env (k + n) = true := by
  intro n
  induction n with
  | zero => simpa using h
  | succ n ih =>
    have : k + (n + 1) = (k + n) + 1 := by omega
    rw [this, closeFlag, ih]
    simp

theorem closeFlag_false_before (env : Env) (k : Nat) (h : closeFlag env k = false) :
    ∀ j, j ≤ k → closeFlag env j = false := by
  intro j hj
  by_contra hc
  have ht : closeFlag env j = true := by simpa using hc
  have := closeFlag_mono env j ht (k - j)
  have hk : j + (k - j) = k := by omega
  rw [hk, h] at this
  exact Bool.false_ne_true this

theorem frame_flag (env : Env) (shape : ShapeType) (g : Globals) (k : Nat) :
    (frame env shape g k false).1 = (env.escapePressed k || env.closeRequested k) := by
  unfold frame processInput
  cases env.escapePressed k <;> simp

theorem frame_calls (env : Env) (shape : ShapeType) (g : Globals) (k : Nat) (flag : Bool) :
    (frame env shape g k flag).2 = frameActions env shape g k := by
  unfold frame processInput frameActions
  cases env.escapePressed k <;> cases shape <;>
    simp [render, renderTriangle, renderTwoTriangles, renderRectangleWithEBO, renderRoutine,
      drawCall]

theorem renderLoop_true (env : Env) (shape : ShapeType) (g : Globals) (fuel k : Nat) :
    renderLoop env shape g fuel k true = (true, [ .glfwWindowShouldClose true ]) := by
  cases fuel <;> simp [renderLoop]

/-- The loop leaves after exactly `n` frames when the close flag is first seen
at the `n`-th test and the fuel covers `n` frames. -/
theorem renderLoop_closes (env : Env) (shape : ShapeType) (g : Globals) :
    ∀ n fuel k, closeFlag env (k + n) = true → (∀ j, j < n → closeFlag env (k + j) = false) →
      n ≤ fuel →
      renderLoop env shape g fuel k (closeFlag env k)
        = (true, framesFrom (fun j => .glfwWindowShouldClose false :: frameActions env shape g j)
                  k n ++ [ .glfwWindowShouldClose true ]) := by
  intro n
  induction n with
  | zero =>
    intro fuel k h _ _
    have h0 : closeFlag env k = true := by simpa using h
    rw [h0, renderLoop_true]
    simp [framesFrom]
  | succ n ih =>
    intro fuel k h hbefore hfuel
    have h0 : closeFlag env k = false := by simpa using hbefore 0 (Nat.succ_pos n)
    obtain ⟨fuel', rfl⟩ : ∃ f, fuel = f + 1 := ⟨fuel - 1, by omega⟩
    have hnext : (frame env shape g k false).1 = closeFlag env (k + 1) := by
      rw [frame_flag, closeFlag, h0]
      simp
    have hk : k + (n + 1) = (k + 1) + n := by omega
    have ih' := ih fuel' (k + 1) (by rw [← hk]; exact h)
      (by
        intro j hj
        have : k + 1 + j = k + (j + 1) := by omega
        rw [this]
        exact hbefore (j + 1) (by omega))
      (by omega)
    rw [h0]
    simp only [renderLoop]
    rw [hnext, ih', frame_calls]
    simp [framesFrom]

/-- The loop is still running when the fuel ends if no test up to then sees
the close flag. -/
theorem renderLoop_running (env : Env) (shape : ShapeType) (g : Globals) :
    ∀ fuel k, (∀ j, j ≤ fuel → closeFlag env (k + j) = false) →
      renderLoop env shape g fuel k (closeFlag env k)
        = (false, framesFrom (fun j => .glfwWindowShouldClose false :: frameActions env shape g j)
                  k fuel ++ [ .glfwWindowShouldClose false ]) := by
  intro fuel
  induction fuel with
  | zero =>
    intro k h
    have h0 : closeFlag env k = false := by simpa using h 0 (Nat.le_refl 0)
    rw [h0]
    simp [renderLoop, framesFrom]
  | succ fuel ih =>
    intro k h
    have h0 : closeFlag env k = false := by simpa using h 0 (Nat.zero_le _)
    have hnext : (frame env shape g k false).1 = closeFlag env (k + 1) := by
      rw [frame_flag, closeFlag, h0]
      simp
    have ih' := ih (k + 1)
      (by
        intro j hj
        have : k + 1 + j = k + (j + 1) := by omega
        rw [this]
        exact h (j + 1) (by omega))
    rw [h0]
    simp only [renderLoop]
    rw [hnext, ih', frame_calls]
    simp [framesFrom]

/-- Either the close flag is first seen at some test `n ≤ fuel`, or it is not
seen at any test up to `fuel`. -/
theorem closeFlag_first (env : Env) (fuel : Nat) :
    (∃ n, n ≤ fuel ∧ closeFlag env n = true ∧ ∀ j, j < n → closeFlag env j = false) ∨
    (∀ j, j ≤ fuel → closeFlag env j = false) := by
  induction fuel with
  | zero =>
    cases h : closeFlag env 0
    · right
      intro j hj
      have : j = 0 := by omega
      rw [this, h]
    · left
      exact ⟨0, Nat.le_refl 0, h, fun j hj => absurd hj (Nat.not_lt_zero j)⟩
  | succ fuel ih =>
    rcases ih with ⟨n, hn, ht, hb⟩ | hall
    · left
      exact ⟨n, by omega, ht, hb⟩
    · cases h : closeFlag env (fuel + 1)
      · right
        intro j hj
        rcases Nat.lt_or_ge j (fuel + 1) with hlt | hge
        · exact hall j (by omega)
        · have : j = fuel + 1 := by omega
          rw [this, h]
      · left
        exact ⟨fuel + 1, Nat.le_refl _, h, fun j hj => hall j (by omega)⟩

/-! ## Lemmas on `main` -/

theorem mainWith_closes (shape : ShapeType) (env : Env) (n fuel : Nat)
    (hinit : env.glfwInitOk = true) (hwin : env.windowCreated = true)
    (hglad : env.gladLoaded = true) (hn : closeFlag env n = true)
    (hbefore : ∀ j, j < n → closeFlag env j = false) (hfuel : n ≤ fuel) :
    mainWith shape env fuel
      = ⟨startupCalls env ++ [ .shaderConstruct "shader_vs.glsl" "shader_fs.glsl" ]
          ++ (setup shape env.genName Globals.zero).2
          ++ framesFrom (fun j => .glfwWindowShouldClose false
                :: frameActions env shape (setup shape env.genName Globals.zero).1 j) 0 n
          ++ [ .glfwWindowShouldClose true ]
          ++ cleanup env.programID (setup shape env.genName Globals.zero).1
          ++ [ .glfwDestroyWindow, .glfwTerminate ], some 0⟩ := by
  have hloop := renderLoop_closes env shape (setup shape env.genName Globals.zero).1 n fuel 0
    (by simpa using hn) (by simpa using hbefore) hfuel
  have h0 : closeFlag env 0 = env.closeAtStart := rfl
  rw [h0] at hloop
  simp [mainWith, hinit, hwin, hglad, hloop, startupCalls]

theorem mainWith_running (shape : ShapeType) (env : Env) (fuel : Nat)
    (hinit : env.glfwInitOk = true) (hwin : env.windowCreated = true)
    (hglad : env.gladLoaded = true) (hall : ∀ j, j ≤ fuel → closeFlag env j = false) :
    mainWith shape env fuel
      = ⟨startupCalls env ++ [ .shaderConstruct "shader_vs.glsl" "shader_fs.glsl" ]
          ++ (setup shape env.genName Globals.zero).2
          ++ framesFrom (fun j => .glfwWindowShouldClose false
                :: frameActions env shape (setup shape env.genName Globals.zero).1 j) 0 fuel
          ++ [ .glfwWindowShouldClose false ], none⟩ := by
  have hloop := renderLoop_running env shape (setup shape env.genName Globals.zero).1 fuel 0
    (by simpa using hall)
  have h0 : closeFlag env 0 = env.closeAtStart := rfl
  rw [h0] at hloop
  simp [mainWith, hinit, hwin, hglad, hloop, startupCalls]

theorem filter_framesFrom (p : Call → Bool) (f : Nat → List Call) :
    ∀ n k, (framesFrom f k n).filter p = framesFrom (fun j => (f j).filter p) k n := by
  intro n
  induction n with
  | zero => intro k; rfl
  | succ n ih => intro k; simp [framesFrom, ih]

theorem framesFrom_singleton (x : Call) :
    ∀ n k, framesFrom (fun _ => [x]) k n = List.replicate n x := by
  intro n
  induction n with
  | zero => intro k; rfl
  | succ n ih => intro k; simp [framesFrom, ih, List.replicate_succ]

theorem framesFrom_nil : ∀ n k, framesFrom (fun _ => ([] : List Call)) k n = [] := by
  intro n
  induction n with
  | zero => intro k; rfl
  | succ n ih => intro k; simp [framesFrom, ih]

theorem filter_resizeCallbacks (p : Call → Bool)
    (h1 : p (.enter .framebuffer_size_callback) = false)
    (h2 : ∀ w h, p (.glViewport 0 0 w h) = false) (l : List (Int × Int)) :
    (resizeCallbacks l).filter p = [] := by
  induction l with
  | nil => rfl
  | cons a l ih =>
    obtain ⟨w, h⟩ := a
    simp [resizeCallbacks, framebuffer_size_callback, h1, h2, ih]

theorem filter_frame_draw (env : Env) (shape : ShapeType) (g : Globals) (j : Nat) :
    (Call.glfwWindowShouldClose false :: frameActions env shape g j).filter Call.isDraw
      = [ drawCall shape ] := by
  have hr := filter_resizeCallbacks Call.isDraw rfl (fun _ _ => rfl) (env.resizes j)
  unfold frameActions
  rw [← List.cons_append, List.filter_append, hr, List.append_nil]
  cases hesc : env.escapePressed j <;> cases shape <;>
    simp [hesc, Call.isDraw, renderRoutine, drawCall]

theorem filter_frame_lifecycle_or_draw (env : Env) (shape : ShapeType) (g : Globals) (j : Nat) :
    (Call.glfwWindowShouldClose false :: frameActions env shape g j).filter
        (fun c => c.isLifecycle || c.isDraw)
      = [ .enter (renderRoutine shape), drawCall shape ] := by
  have hr := filter_resizeCallbacks (fun c => c.isLifecycle || c.isDraw) rfl (fun _ _ => rfl)
    (env.resizes j)
  unfold frameActions
  rw [← List.cons_append, List.filter_append, hr, List.append_nil]
  cases hesc : env.escapePressed j <;> cases shape <;>
    simp [hesc, Call.isLifecycle, Call.isDraw, renderRoutine, drawCall]

theorem filter_frame_swap (env : Env) (shape : ShapeType) (g : Globals) (j : Nat) :
    (Call.glfwWindowShouldClose false :: frameActions env shape g j).filter Call.isSwap
      = [ .glfwSwapBuffers ] := by
  have hr := filter_resizeCallbacks Call.isSwap rfl (fun _ _ => rfl) (env.resizes j)
  unfold frameActions
  rw [← List.cons_append, List.filter_append, hr, List.append_nil]
  cases hesc : env.escapePressed j <;> cases shape <;>
    simp [hesc, Call.isSwap, renderRoutine, drawCall]

theorem filter_frame_enter (env : Env) (shape : ShapeType) (g : Globals) (j : Nat)
    (r : Routine) (hr1 : r ≠ .framebuffer_size_callback) :
    (Call.glfwWindowShouldClose false :: frameActions env shape g j).filter (Call.isEnter r)
      = (if r = .processInput then [ .enter .processInput ] else [])
        ++ (if r = renderRoutine shape then [ .enter (renderRoutine shape) ] else []) := by
  have hr := filter_resizeCallbacks (Call.isEnter r)
    (by simpa [Call.isEnter] using hr1.symm) (fun _ _ => rfl) (env.resizes j)
  unfold frameActions
  rw [← List.cons_append, List.filter_append, hr, List.append_nil]
  cases hesc : env.escapePressed j <;> cases shape <;> cases r <;>
    simp [hesc, Call.isEnter, renderRoutine, drawCall] at hr1 ⊢

theorem filter_startup (env : Env) (p : Call → Bool)
    (hp : ∀ c ∈ startupCalls env ++ [ .shaderConstruct "shader_vs.glsl" "shader_fs.glsl" ],
      p c = false) :
    (startupCalls env ++ [ Call.shaderConstruct "shader_vs.glsl" "shader_fs.glsl" ]).filter p
      = [] := by
  rw [List.filter_eq_nil_iff]
  intro c hc
  simp [hp c hc]

theorem startup_no_enter_draw_swap (env : Env) :
    ∀ c ∈ startupCalls env ++ [ .shaderConstruct "shader_vs.glsl" "shader_fs.glsl" ],
      c.isLifecycle = false ∧ c.isDraw = false ∧ c.isSwap = false ∧
      ∀ r, c.isEnter r = false := by
  intro c hc
  cases hap : env.apple <;>
    simp [startupCalls, hap] at hc <;>
    rcases hc with rfl | rfl | rfl | rfl | rfl | rfl | rfl | rfl | rfl | hc <;>
    first
      | exact ⟨rfl, rfl, rfl, fun _ => rfl⟩
      | (subst hc; exact ⟨rfl, rfl, rfl, fun _ => rfl⟩)

theorem mainWith_init_fails (shape : ShapeType) (env : Env) (fuel : Nat)
    (hinit : env.glfwInitOk = false) :
    mainWith shape env fuel
      = ⟨[ .glfwInit false, .print .cerr "Failed to initialize GLFW" ], some (-1)⟩ := by
  simp [mainWith, hinit]

theorem mainWith_window_fails (shape : ShapeType) (env : Env) (fuel : Nat)
    (hinit : env.glfwInitOk = true) (hwin : env.windowCreated = false) :
    mainWith shape env fuel
      = ⟨[ .glfwInit true,
           .glfwWindowHint (.GLFW_CONTEXT_VERSION_MAJOR 3),
           .glfwWindowHint (.GLFW_CONTEXT_VERSION_MINOR 3),
           .glfwWindowHint .GLFW_OPENGL_PROFILE_CORE ]
          ++ (if env.apple then [ .glfwWindowHint .GLFW_OPENGL_FORWARD_COMPAT_TRUE ] else [])
          ++ [ .glfwCreateWindow 800 600 "Hello Tatsulok" false,
               .print .cout "Failed to create GLFW window",
               .glfwTerminate ], some (-1)⟩ := by
  simp [mainWith, hinit, hwin]

theorem mainWith_glad_fails (shape : ShapeType) (env : Env) (fuel : Nat)
    (hinit : env.glfwInitOk = true) (hwin : env.windowCreated = true)
    (hglad : env.gladLoaded = false) :
    mainWith shape env fuel
      = ⟨[ .glfwInit true,
           .glfwWindowHint (.GLFW_CONTEXT_VERSION_MAJOR 3),
           .glfwWindowHint (.GLFW_CONTEXT_VERSION_MINOR 3),
           .glfwWindowHint .GLFW_OPENGL_PROFILE_CORE ]
          ++ (if env.apple then [ .glfwWindowHint .GLFW_OPENGL_FORWARD_COMPAT_TRUE ] else [])
          ++ [ .glfwCreateWindow 800 600 "Hello Tatsulok" true,
               .glfwMakeContextCurrent,
               .glfwSetFramebufferSizeCallback .framebuffer_size_callback,
               .gladLoadGLLoader false,
               .print .cout "Failed to initialize GLAD" ], some (-1)⟩ := by
  simp [mainWith, hinit, hwin, hglad]

/-- Filtering a run that left the loop, for a predicate that holds of no
start-up call and of no call made after `cleanup`. -/
theorem filter_mainWith_closes (p : Call → Bool) (shape : ShapeType) (env : Env)
    (n fuel : Nat) (hinit : env.glfwInitOk = true) (hwin : env.windowCreated = true)
    (hglad : env.gladLoaded = true) (hn : closeFlag env n = true)
    (hbefore : ∀ j, j < n → closeFlag env j = false) (hfuel : n ≤ fuel)
    (hs : ∀ c ∈ startupCalls env ++ [ .shaderConstruct "shader_vs.glsl" "shader_fs.glsl" ],
      p c = false)
    (hc : p (.glfwWindowShouldClose true) = false) (hd : p .glfwDestroyWindow = false)
    (ht : p .glfwTerminate = false) :
    (mainWith shape env fuel).calls.filter p
      = (setup shape env.genName Globals.zero).2.filter p
        ++ framesFrom (fun j => (Call.glfwWindowShouldClose false
              :: frameActions env shape (setup shape env.genName Globals.zero).1 j).filter p) 0 n
        ++ (cleanup env.programID (setup shape env.genName Globals.zero).1).filter p := by
  rw [mainWith_closes shape env n fuel hinit hwin hglad hn hbefore hfuel]
  simp only [List.filter_append, filter_framesFrom, filter_startup env p hs]
  simp [hc, hd, ht]

/-- Filtering a run that is still in the loop when the fuel ends. -/
theorem filter_mainWith_running (p : Call → Bool) (shape : ShapeType) (env : Env)
    (fuel : Nat) (hinit : env.glfwInitOk = true) (hwin : env.windowCreated = true)
    (hglad : env.gladLoaded = true) (hall : ∀ j, j ≤ fuel → closeFlag env j = false)
    (hs : ∀ c ∈ startupCalls env ++ [ .shaderConstruct "shader_vs.glsl" "shader_fs.glsl" ],
      p c = false)
    (hc : p (.glfwWindowShouldClose false) = false) :
    (mainWith shape env fuel).calls.filter p
      = (setup shape env.genName Globals.zero).2.filter p
        ++ framesFrom (fun j => (Call.glfwWindowShouldClose false
              :: frameActions env shape (setup shape env.genName Globals.zero).1 j).filter p)
            0 fuel := by
  rw [mainWith_running shape env fuel hinit hwin hglad hall]
  simp only [List.filter_append, filter_framesFrom, filter_startup env p hs]
  simp [hc]

theorem filter_cleanup_enter (shaderProgram : GLuint) (g : Globals) (r : Routine) :
    (cleanup shaderProgram g).filter (Call.isEnter r)
      = if r = .cleanup then [ .enter .cleanup ] else [] := by
  by_cases h : g.EBO = 0 <;> cases r <;> simp [cleanup, h, Call.isEnter]

theorem filter_cleanup_lifecycle_or_draw (shaderProgram : GLuint) (g : Globals) :
    (cleanup shaderProgram g).filter (fun c => c.isLifecycle || c.isDraw)
      = [ .enter .cleanup ] := by
  by_cases h : g.EBO = 0 <;> simp [cleanup, h, Call.isLifecycle, Call.isDraw]

theorem filter_cleanup_swap (shaderProgram : GLuint) (g : Globals) :
    (cleanup shaderProgram g).filter Call.isSwap = [] := by
  by_cases h : g.EBO = 0 <;> simp [cleanup, h, Call.isSwap]

theorem filter_setup_enter (shape : ShapeType) (gen : Nat → GLuint) (g : Globals)
    (r : Routine) (hr : r = .cleanup ∨ r = .processInput ∨ r = renderRoutine shape) :
    (setup shape gen g).2.filter (Call.isEnter r) = [] := by
  cases shape <;> rcases hr with rfl | rfl | rfl <;>
    simp [setup, setupTriangle, setupTwoTriangles, setupRectangleWithEBO, Call.isEnter,
      renderRoutine]

theorem filter_setup_swap (shape : ShapeType) (gen : Nat → GLuint) (g : Globals) :
    (setup shape gen g).2.filter Call.isSwap = [] := by
  cases shape <;>
    simp [setup, setupTriangle, setupTwoTriangles, setupRectangleWithEBO, Call.isSwap]

theorem filter_setupTriangle_lifecycle_or_draw (gen : Nat → GLuint) (g : Globals) :
    (setup .TRIANGLE gen g).2.filter (fun c => c.isLifecycle || c.isDraw)
      = [ .enter .setupTriangle ] := by
  simp [setup, setupTriangle, Call.isLifecycle, Call.isDraw]

theorem filter_setupTriangle_enter_self (gen : Nat → GLuint) (g : Globals) :
    (setup .TRIANGLE gen g).2.filter (Call.isEnter .setupTriangle)
      = [ .enter .setupTriangle ] := by
  simp [setup, setupTriangle, Call.isEnter]

theorem filter_setup_draw (shape : ShapeType) (gen : Nat → GLuint) (g : Globals) :
    (setup shape gen g).2.filter Call.isDraw = [] := by
  cases shape <;>
    simp [setup, setupTriangle, setupTwoTriangles, setupRectangleWithEBO, Call.isDraw]

theorem filter_cleanup_draw (shaderProgram : GLuint) (g : Globals) :
    (cleanup shaderProgram g).filter Call.isDraw = [] := by
  by_cases h : g.EBO = 0 <;> simp [cleanup, h, Call.isDraw]

/-- No execution of `main`, finished or not, enters `cleanup` twice. -/
theorem cleanup_entered_at_most_once (shape : ShapeType) (env : Env) (fuel : Nat) :
    (mainWith shape env fuel).calls.countP (Call.isEnter .cleanup) ≤ 1 := by
  rw [List.countP_eq_length_filter]
  cases hinit : env.glfwInitOk
  · rw [mainWith_init_fails shape env fuel hinit]
    simp [Call.isEnter]
  cases hwin : env.windowCreated
  · rw [mainWith_window_fails shape env fuel hinit hwin]
    cases env.apple <;> simp [Call.isEnter]
  cases hglad : env.gladLoaded
  · rw [mainWith_glad_fails shape env fuel hinit hwin hglad]
    cases env.apple <;> simp [Call.isEnter]
  have hs : ∀ c ∈ startupCalls env ++ [ .shaderConstruct "shader_vs.glsl" "shader_fs.glsl" ],
      Call.isEnter .cleanup c = false :=
    fun c hc => (startup_no_enter_draw_swap env c hc).2.2.2 _
  have hframe : ∀ g, (fun j => (Call.glfwWindowShouldClose false
        :: frameActions env shape g j).filter (Call.isEnter .cleanup)) = fun _ => [] := by
    intro g
    funext j
    rw [filter_frame_enter env shape g j .cleanup (by decide)]
    cases shape <;> simp [renderRoutine]
  rcases closeFlag_first env fuel with ⟨n, hn, ht, hb⟩ | hall
  · rw [filter_mainWith_closes _ shape env n fuel hinit hwin hglad ht hb hn hs rfl rfl rfl,
      hframe, framesFrom_nil, filter_cleanup_enter,
      filter_setup_enter shape _ _ _ (Or.inl rfl)]
    simp
  · rw [filter_mainWith_running _ shape env fuel hinit hwin hglad hall hs rfl,
      hframe, framesFrom_nil, filter_setup_enter shape _ _ _ (Or.inl rfl)]
    simp

/-- A run that starts up returns 0 exactly when some test of the loop
condition within the fuel sees the close flag; otherwise it has not returned. -/
theorem mainWith_exit_of_startup (shape : ShapeType) (env : Env) (fuel : Nat)
    (hinit : env.glfwInitOk = true) (hwin : env.windowCreated = true)
    (hglad : env.gladLoaded = true) :
    ((mainWith shape env fuel).exit = some 0 ↔ ∃ n, n ≤ fuel ∧ closeFlag env n = true) ∧
    ((mainWith shape env fuel).exit = none ↔ ∀ n, n ≤ fuel → closeFlag env n = false) := by
  rcases closeFlag_first env fuel with ⟨n, hn, ht, hb⟩ | hall
  · rw [mainWith_closes shape env n fuel hinit hwin hglad ht hb hn]
    refine ⟨⟨fun _ => ⟨n, hn, ht⟩, fun _ => rfl⟩, ⟨fun h => by simp at h, fun h => ?_⟩⟩
    have := h n hn
    rw [ht] at this
    exact absurd this (by decide)
  · rw [mainWith_running shape env fuel hinit hwin hglad hall]
    refine ⟨⟨fun h => by simp at h, fun ⟨n, hn, ht⟩ => ?_⟩, ⟨fun _ => hall, fun _ => rfl⟩⟩
    rw [hall n hn] at ht
    exact absurd ht (by decide)

theorem closeFlag_neverClose : ∀ n, closeFlag neverClose n = false := by
  intro n
  induction n with
  | zero => rfl
  | succ n ih =>
    rw [closeFlag, ih]
    rfl

/-! ## Theorems -/

/-- C1: for every value of the handles, each render routine issues exactly one
draw call: `renderTriangle` a non-indexed triangle draw from vertex 0 with
count 3, `renderTwoTriangles` an indexed triangle draw of 6 indices of 16-bit
type at offset 0, `renderRectangleWithEBO` an indexed triangle draw of 6
indices of 32-bit type at offset 0. -/
theorem render_issues_one_draw (g : Globals) :
    (renderTriangle g).filter Call.isDraw = [Call.glDrawArrays .GL_TRIANGLES 0 3] ∧
    (renderTwoTriangles g).filter Call.isDraw
      = [Call.glDrawElements .GL_TRIANGLES 6 .GL_UNSIGNED_SHORT 0] ∧
    (renderRectangleWithEBO g).filter Call.isDraw
      = [Call.glDrawElements .GL_TRIANGLES 6 .GL_UNSIGNED_INT 0] ∧
    8 * IndexType.bytes .GL_UNSIGNED_SHORT = 16 ∧
    8 * IndexType.bytes .GL_UNSIGNED_INT = 32 := by
  refine ⟨rfl, rfl, rfl, rfl, rfl⟩

/-- C2: after each setup routine the data uploaded to the vertex buffer is
exactly that variant's literal vertex list, and the data uploaded to the
element buffer, where there is one, exactly its literal index list.
`setupTriangle` uploads 3 vertices of 6 floats and no index data,
`setupTwoTriangles` 5 position-only vertices and the 16-bit indices
0,1,2,1,3,4, `setupRectangleWithEBO` 4 position-only vertices and the 32-bit
indices 0,1,3,1,2,3. -/
theorem setup_uploads_literal_data (gen : Nat → GLuint) (g : Globals) (b : Bindings) :
    uploads (observe b (setupTriangle gen g).2)
      = [ (.GL_ARRAY_BUFFER, (setupTriangle gen g).1.VBO, 3 * 6 * 4,
            .floats ([ .pos 50, .neg 50, .pos 0, .pos 100, .pos 0, .pos 0 ]
                  ++ [ .neg 50, .neg 50, .pos 0, .pos 0, .pos 100, .pos 0 ]
                  ++ [ .pos 0, .pos 50, .pos 0, .pos 0, .pos 0, .pos 100 ])) ] ∧
    uploads (observe b (setupTwoTriangles gen g).2)
      = [ (.GL_ARRAY_BUFFER, (setupTwoTriangles gen g).1.VBO, 5 * 3 * 4,
            .floats ([ .neg 90, .neg 50, .pos 0 ] ++ [ .neg 0, .neg 50, .pos 0 ]
                  ++ [ .neg 45, .pos 50, .pos 0 ] ++ [ .pos 90, .neg 50, .pos 0 ]
                  ++ [ .pos 45, .pos 50, .pos 0 ])),
          (.GL_ELEMENT_ARRAY_BUFFER, (setupTwoTriangles gen g).1.EBO, 6 * 2,
            .ushorts [0, 1, 2, 1, 3, 4]) ] ∧
    uploads (observe b (setupRectangleWithEBO gen g).2)
      = [ (.GL_ARRAY_BUFFER, (setupRectangleWithEBO gen g).1.VBO, 4 * 3 * 4,
            .floats ([ .pos 50, .pos 50, .pos 0 ] ++ [ .pos 50, .neg 50, .pos 0 ]
                  ++ [ .neg 50, .neg 50, .pos 0 ] ++ [ .neg 50, .pos 50, .pos 0 ])),
          (.GL_ELEMENT_ARRAY_BUFFER, (setupRectangleWithEBO gen g).1.EBO, 6 * 4,
            .uints [0, 1, 3, 1, 2, 3]) ] := by
  refine ⟨?_, ?_, ?_⟩
  · simp [setupTriangle, observe, Obs.ofCall, Bindings.step, Bindings.bound, uploads,
      Payload.sizeof, sizeofGLfloat]
  · simp [setupTwoTriangles, observe, Obs.ofCall, Bindings.step, Bindings.bound, uploads,
      Payload.sizeof, sizeofGLfloat, sizeofGLushort]
  · simp [setupRectangleWithEBO, observe, Obs.ofCall, Bindings.step, Bindings.bound, uploads,
      Payload.sizeof, sizeofGLfloat, sizeofGLuint]

/-- C3: from zeroed handles and with a generator that never yields zero, for
every shape `v`, `cleanup` run after `setup v` deletes the vertex array and the
vertex buffer, and deletes the element buffer exactly when `setup v` generated
one, which is exactly when `v` is not `TRIANGLE`. -/
theorem cleanup_releases_what_setup_made (gen : Nat → GLuint) (hgen : ∀ n, gen n ≠ 0)
    (v : ShapeType) (shaderProgram : GLuint) :
    Call.glDeleteVertexArrays 1 .VAO (setup v gen Globals.zero).1.VAO
        ∈ cleanup shaderProgram (setup v gen Globals.zero).1 ∧
    Call.glDeleteBuffers 1 .VBO (setup v gen Globals.zero).1.VBO
        ∈ cleanup shaderProgram (setup v gen Globals.zero).1 ∧
    ((∃ n name, Call.glDeleteBuffers n .EBO name
          ∈ cleanup shaderProgram (setup v gen Globals.zero).1)
      ↔ ∃ n name, Call.glGenBuffers n .EBO name ∈ (setup v gen Globals.zero).2) ∧
    ((∃ n name, Call.glGenBuffers n .EBO name ∈ (setup v gen Globals.zero).2)
      ↔ v ≠ .TRIANGLE) ∧
    ((∃ n name, Call.glDeleteBuffers n .EBO name
          ∈ cleanup shaderProgram (setup v gen Globals.zero).1)
      → Call.glDeleteBuffers 1 .EBO (setup v gen Globals.zero).1.EBO
          ∈ cleanup shaderProgram (setup v gen Globals.zero).1) := by
  have h2 := hgen 2
  cases v <;>
    simp [setup, setupTriangle, setupTwoTriangles, setupRectangleWithEBO, cleanup,
      Globals.zero, h2]

/-- Witness for C3 with the generator `n ↦ n + 1` and `TWO_TRIANGLES`. -/
theorem cleanup_releases_what_setup_made_witness :
    (∀ n, sampleGen n ≠ 0) ∧
    Call.glDeleteBuffers 1 .VBO (setup .TWO_TRIANGLES sampleGen Globals.zero).1.VBO
        ∈ cleanup 7 (setup .TWO_TRIANGLES sampleGen Globals.zero).1 :=
  ⟨fun n => Nat.succ_ne_zero n,
   (cleanup_releases_what_setup_made sampleGen (fun n => Nat.succ_ne_zero n)
      .TWO_TRIANGLES 7).2.1⟩


/-- C7 as stated fails: the two triangles uploaded by `setupTwoTriangles` do
not share exactly 2 vertices. -/
theorem twoTriangles_share_two_refuted :
    ¬ (sharedVertices
        (uploadedIndices (observe Bindings.fresh
          (setupTwoTriangles sampleGen Globals.zero).2))).length = 2 := by
  simp [setupTwoTriangles, observe, Obs.ofCall, Bindings.step, Bindings.bound,
    uploadedIndices, Payload.indices, sharedVertices]

/-- C7 amended: the index list uploaded by `setupTwoTriangles` has 6 indices,
the triples 0,1,2 and 1,3,4, over 5 uploaded vertices; every index is below 5;
and the two triangles share exactly 1 vertex, namely vertex 1. -/
theorem twoTriangles_share_one_vertex (gen : Nat → GLuint) (g : Globals) (b : Bindings) :
    (uploadedIndices (observe b (setupTwoTriangles gen g).2)).length = 6 ∧
    (uploadedIndices (observe b (setupTwoTriangles gen g).2)).take 3 = [0, 1, 2] ∧
    (uploadedIndices (observe b (setupTwoTriangles gen g).2)).drop 3 = [1, 3, 4] ∧
    vertexCount (observe b (setupTwoTriangles gen g).2) = 5 ∧
    (∀ i ∈ uploadedIndices (observe b (setupTwoTriangles gen g).2),
        i < vertexCount (observe b (setupTwoTriangles gen g).2)) ∧
    sharedVertices (uploadedIndices (observe b (setupTwoTriangles gen g).2)) = [1] ∧
    (sharedVertices (uploadedIndices (observe b (setupTwoTriangles gen g).2))).length = 1 := by
  rw [observe_setupTwoTriangles]
  have hv := vertexCount_twoTriangles gen
  rw [hv]
  refine ⟨by rfl, by rfl, by rfl, rfl, ?_, by rfl, by rfl⟩
  intro i hi
  simp [uploadedIndices, Payload.indices] at hi
  omega

/-- C9: the draw issued by each render routine after the matching setup
routine reads only what that setup uploaded.  The draw uses the vertex array
the attributes were declared on, the attributes read from the buffer the vertex
data went to, and an indexed draw reads the buffer the index data went to.  For
`TRIANGLE` the drawn range 0..3 lies within the 3 uploaded vertices; for the two
indexed shapes count times index width (6*2, 6*4) equals the uploaded index
bytes, the index type is as wide as the uploaded elements, and every uploaded
index is below the number of uploaded vertices (5, 4). -/
theorem draw_reads_only_uploaded_data (gen : Nat → GLuint) (g : Globals) (b : Bindings) :
    (drawsOf (observe b ((setupTriangle gen g).2 ++ renderTriangle (setupTriangle gen g).1))
        = [ .drawArrays (setupTriangle gen g).1.VAO .GL_TRIANGLES 0 3 ] ∧
      pointerSources (observe b (setupTriangle gen g).2)
        = [ ((setupTriangle gen g).1.VAO, (setupTriangle gen g).1.VBO),
            ((setupTriangle gen g).1.VAO, (setupTriangle gen g).1.VBO) ] ∧
      vertexUploads (observe b (setupTriangle gen g).2) = [ (setupTriangle gen g).1.VBO ] ∧
      vertexCount (observe b (setupTriangle gen g).2) = 3 ∧
      0 + 3 ≤ vertexCount (observe b (setupTriangle gen g).2)) ∧
    (drawsOf (observe b
          ((setupTwoTriangles gen g).2 ++ renderTwoTriangles (setupTwoTriangles gen g).1))
        = [ .drawElements (setupTwoTriangles gen g).1.VAO (setupTwoTriangles gen g).1.EBO
              .GL_TRIANGLES 6 .GL_UNSIGNED_SHORT 0 ] ∧
      pointerSources (observe b (setupTwoTriangles gen g).2)
        = [ ((setupTwoTriangles gen g).1.VAO, (setupTwoTriangles gen g).1.VBO) ] ∧
      vertexUploads (observe b (setupTwoTriangles gen g).2)
        = [ (setupTwoTriangles gen g).1.VBO ] ∧
      indexUploads (observe b (setupTwoTriangles gen g).2)
        = [ ((setupTwoTriangles gen g).1.EBO, IndexType.bytes .GL_UNSIGNED_SHORT) ] ∧
      6 * IndexType.bytes .GL_UNSIGNED_SHORT
        = uploadedIndexBytes (observe b (setupTwoTriangles gen g).2) ∧
      uploadedIndexBytes (observe b (setupTwoTriangles gen g).2) = 6 * 2 ∧
      vertexCount (observe b (setupTwoTriangles gen g).2) = 5 ∧
      ∀ i ∈ uploadedIndices (observe b (setupTwoTriangles gen g).2),
        i < vertexCount (observe b (setupTwoTriangles gen g).2)) ∧
    (drawsOf (observe b ((setupRectangleWithEBO gen g).2
          ++ renderRectangleWithEBO (setupRectangleWithEBO gen g).1))
        = [ .drawElements (setupRectangleWithEBO gen g).1.VAO
              (setupRectangleWithEBO gen g).1.EBO .GL_TRIANGLES 6 .GL_UNSIGNED_INT 0 ] ∧
      pointerSources (observe b (setupRectangleWithEBO gen g).2)
        = [ ((setupRectangleWithEBO gen g).1.VAO, (setupRectangleWithEBO gen g).1.VBO) ] ∧
      vertexUploads (observe b (setupRectangleWithEBO gen g).2)
        = [ (setupRectangleWithEBO gen g).1.VBO ] ∧
      indexUploads (observe b (setupRectangleWithEBO gen g).2)
        = [ ((setupRectangleWithEBO gen g).1.EBO, IndexType.bytes .GL_UNSIGNED_INT) ] ∧
      6 * IndexType.bytes .GL_UNSIGNED_INT
        = uploadedIndexBytes (observe b (setupRectangleWithEBO gen g).2) ∧
      uploadedIndexBytes (observe b (setupRectangleWithEBO gen g).2) = 6 * 4 ∧
      vertexCount (observe b (setupRectangleWithEBO gen g).2) = 4 ∧
      ∀ i ∈ uploadedIndices (observe b (setupRectangleWithEBO gen g).2),
        i < vertexCount (observe b (setupRectangleWithEBO gen g).2)) := by
  refine ⟨⟨?_, ?_, ?_, ?_, ?_⟩, ⟨?_, ?_, ?_, ?_, ?_, ?_, ?_, ?_⟩, ⟨?_, ?_, ?_, ?_, ?_, ?_, ?_, ?_⟩⟩
  · simp [setupTriangle, renderTriangle, observe, Obs.ofCall, Bindings.step, Bindings.bound,
      drawsOf]
  · rw [observe_setupTriangle]; rfl
  · rw [observe_setupTriangle]; rfl
  · rw [observe_setupTriangle]; exact vertexCount_triangle gen
  · rw [observe_setupTriangle, vertexCount_triangle]
  · simp [setupTwoTriangles, renderTwoTriangles, observe, Obs.ofCall, Bindings.step,
      Bindings.bound, drawsOf]
  · rw [observe_setupTwoTriangles]; rfl
  · rw [observe_setupTwoTriangles]; rfl
  · rw [observe_setupTwoTriangles]; rfl
  · rw [observe_setupTwoTriangles]; rfl
  · rw [observe_setupTwoTriangles]; rfl
  · rw [observe_setupTwoTriangles]; exact vertexCount_twoTriangles gen
  · rw [observe_setupTwoTriangles, vertexCount_twoTriangles]
    intro i hi
    simp [obsTwoTriangles, uploadedIndices, Payload.indices] at hi
    omega
  · simp [setupRectangleWithEBO, renderRectangleWithEBO, observe, Obs.ofCall, Bindings.step,
      Bindings.bound, drawsOf]
  · rw [observe_setupRectangleWithEBO]; rfl
  · rw [observe_setupRectangleWithEBO]; rfl
  · rw [observe_setupRectangleWithEBO]; rfl
  · rw [observe_setupRectangleWithEBO]; rfl
  · rw [observe_setupRectangleWithEBO]; rfl
  · rw [observe_setupRectangleWithEBO]; exact vertexCount_rectangle gen
  · rw [observe_setupRectangleWithEBO, vertexCount_rectangle]
    intro i hi
    simp [obsRectangle, uploadedIndices, Payload.indices] at hi
    omega

/-- C10: the attribute layout each setup routine declares matches the vertex
data it uploads, with 4-byte floats.  The stride is 4 times the floats per
vertex (24, 12, 12 bytes); the enabled attributes are location 0 at offset 0
and, for `TRIANGLE`, location 1 at offset 12, each of 3 floats, and do not
overlap inside a vertex; for every enabled attribute and every vertex `i` below
the vertex count, `offset + i * stride + 12` is at most the uploaded size (72,
60, 48 bytes), with equality at the last attribute of the last vertex. -/
theorem attribute_layout_matches_data (v : ShapeType) (gen : Nat → GLuint) (g : Globals)
    (b : Bindings) :
    sizeofGLfloat = 4 ∧
    enabledAttribs (observe b (setup v gen g).2)
      = (match v with
         | .TRIANGLE => [⟨0, 3, 24, 0⟩, ⟨1, 3, 24, 12⟩]
         | .TWO_TRIANGLES => [⟨0, 3, 12, 0⟩]
         | .RECTANGLE_WITH_EBO => [⟨0, 3, 12, 0⟩]) ∧
    floatsPerVertex (observe b (setup v gen g).2)
      = (match v with | .TRIANGLE => 6 | .TWO_TRIANGLES => 3 | .RECTANGLE_WITH_EBO => 3) ∧
    vertexCount (observe b (setup v gen g).2)
      = (match v with | .TRIANGLE => 3 | .TWO_TRIANGLES => 5 | .RECTANGLE_WITH_EBO => 4) ∧
    uploadedVertexBytes (observe b (setup v gen g).2)
      = (match v with | .TRIANGLE => 72 | .TWO_TRIANGLES => 60 | .RECTANGLE_WITH_EBO => 48) ∧
    (∀ a ∈ enabledAttribs (observe b (setup v gen g).2),
        a.stride = 4 * floatsPerVertex (observe b (setup v gen g).2) ∧
        a.size = 3 ∧
        a.offset + a.size * sizeofGLfloat ≤ a.stride) ∧
    (enabledAttribs (observe b (setup v gen g).2)).Pairwise Attrib.disjoint ∧
    (∀ a ∈ enabledAttribs (observe b (setup v gen g).2),
      ∀ i, i < vertexCount (observe b (setup v gen g).2) →
        a.offset + i * a.stride + 12 ≤ uploadedVertexBytes (observe b (setup v gen g).2)) ∧
    (∃ a, (enabledAttribs (observe b (setup v gen g).2)).getLast? = some a ∧
        a.offset + (vertexCount (observe b (setup v gen g).2) - 1) * a.stride + 12
          = uploadedVertexBytes (observe b (setup v gen g).2)) := by
  cases v
  · simp only [setup]
    rw [observe_setupTriangle, vertexCount_triangle, enabledAttribs_triangle]
    have hf : floatsPerVertex (obsTriangle gen) = 6 := by
      simp [floatsPerVertex, enabledAttribs_triangle]
    have hb : uploadedVertexBytes (obsTriangle gen) = 72 := by
      simp [obsTriangle, uploadedVertexBytes]
    rw [hf, hb]
    refine ⟨rfl, rfl, rfl, rfl, rfl, ?_, ?_, ?_, ?_⟩
    · simp [sizeofGLfloat]
    · simp [Attrib.disjoint, sizeofGLfloat]
    · intro a ha i hi
      simp at ha
      rcases ha with rfl | rfl <;> simp <;> omega
    · exact ⟨⟨1, 3, 24, 12⟩, rfl, rfl⟩
  · simp only [setup]
    rw [observe_setupTwoTriangles, vertexCount_twoTriangles, enabledAttribs_twoTriangles]
    have hf : floatsPerVertex (obsTwoTriangles gen) = 3 := by
      simp [floatsPerVertex, enabledAttribs_twoTriangles]
    have hb : uploadedVertexBytes (obsTwoTriangles gen) = 60 := by
      simp [obsTwoTriangles, uploadedVertexBytes]
    rw [hf, hb]
    refine ⟨rfl, rfl, rfl, rfl, rfl, ?_, ?_, ?_, ?_⟩
    · simp [sizeofGLfloat]
    · simp
    · intro a ha i hi
      simp at ha
      subst ha
      simp
      omega
    · exact ⟨⟨0, 3, 12, 0⟩, rfl, rfl⟩
  · simp only [setup]
    rw [observe_setupRectangleWithEBO, vertexCount_rectangle, enabledAttribs_rectangle]
    have hf : floatsPerVertex (obsRectangle gen) = 3 := by
      simp [floatsPerVertex, enabledAttribs_rectangle]
    have hb : uploadedVertexBytes (obsRectangle gen) = 48 := by
      simp [obsRectangle, uploadedVertexBytes]
    rw [hf, hb]
    refine ⟨rfl, rfl, rfl, rfl, rfl, ?_, ?_, ?_, ?_⟩
    · simp [sizeofGLfloat]
    · simp
    · intro a ha i hi
      simp at ha
      subst ha
      simp
      omega
    · exact ⟨⟨0, 3, 12, 0⟩, rfl, rfl⟩

/-- C4: when Escape reads as pressed in frame `k` while the loop is running
(start-up having succeeded), `main` returns 0 after exactly `k + 1` frames: frame
`k` is carried out in full, with its render and its buffer swap, no further
frame is started, and `cleanup` is entered exactly once, after the last frame.
Moreover no execution of `main` at all enters `cleanup` twice. -/
theorem escape_ends_loop_after_current_frame (env : Env) (k fuel : Nat)
    (hinit : env.glfwInitOk = true) (hwin : env.windowCreated = true)
    (hglad : env.gladLoaded = true) (hrun : closeFlag env k = false)
    (hesc : env.escapePressed k = true) (hfuel : k < fuel) :
    (main env fuel).exit = some 0 ∧
    (main env fuel).calls
      = startupCalls env ++ [ .shaderConstruct "shader_vs.glsl" "shader_fs.glsl" ]
        ++ (setupTriangle env.genName Globals.zero).2
        ++ framesFrom (fun j => .glfwWindowShouldClose false
              :: (frame env .TRIANGLE (setupTriangle env.genName Globals.zero).1 j false).2)
            0 (k + 1)
        ++ [ .glfwWindowShouldClose true ]
        ++ cleanup env.programID (setupTriangle env.genName Globals.zero).1
        ++ [ .glfwDestroyWindow, .glfwTerminate ] ∧
    frame env .TRIANGLE (setupTriangle env.genName Globals.zero).1 k false
      = (true,
         [ .enter .processInput,
           .glfwGetKey .GLFW_KEY_ESCAPE .GLFW_PRESS,
           .glfwSetWindowShouldClose true,
           .glClearColor (.pos 7) (.pos 13) (.pos 17) (.pos 100),
           .glClear .GL_COLOR_BUFFER_BIT,
           .shaderUse,
           .shaderSetFloat "xOffset" (.pos 50) ]
         ++ renderTriangle (setupTriangle env.genName Globals.zero).1
         ++ [ .glfwSwapBuffers, .glfwPollEvents ]
         ++ resizeCallbacks (env.resizes k)) ∧
    (main env fuel).calls.countP (Call.isEnter .processInput) = k + 1 ∧
    (main env fuel).calls.countP (Call.isEnter .renderTriangle) = k + 1 ∧
    (main env fuel).calls.countP Call.isSwap = k + 1 ∧
    (main env fuel).calls.countP (Call.isEnter .cleanup) = 1 ∧
    (∀ (env' : Env) (fuel' : Nat),
      (main env' fuel').calls.countP (Call.isEnter .cleanup) ≤ 1) := by
  have hn : closeFlag env (k + 1) = true := by simp [closeFlag, hesc]
  have hb : ∀ j, j < k + 1 → closeFlag env j = false :=
    fun j hj => closeFlag_false_before env k hrun j (by omega)
  have hs := startup_no_enter_draw_swap env
  have hfr : (fun j => Call.glfwWindowShouldClose false
        :: (frame env .TRIANGLE (setupTriangle env.genName Globals.zero).1 j false).2)
      = fun j => Call.glfwWindowShouldClose false
        :: frameActions env .TRIANGLE (setupTriangle env.genName Globals.zero).1 j := by
    funext j
    rw [frame_calls]
  have hcount : ∀ r, r ≠ .framebuffer_size_callback →
      (r = .cleanup ∨ r = .processInput ∨ r = renderRoutine .TRIANGLE) →
      (main env fuel).calls.filter (Call.isEnter r)
        = framesFrom (fun _ => (if r = .processInput then [ Call.enter .processInput ] else [])
              ++ (if r = .renderTriangle then [ Call.enter .renderTriangle ] else []))
            0 (k + 1)
          ++ (if r = .cleanup then [ .enter .cleanup ] else []) := by
    intro r hr1 hr2
    have hframe : (fun j => (Call.glfwWindowShouldClose false
          :: frameActions env .TRIANGLE (setup .TRIANGLE env.genName Globals.zero).1 j).filter
            (Call.isEnter r))
        = fun _ => (if r = .processInput then [ Call.enter .processInput ] else [])
              ++ (if r = .renderTriangle then [ Call.enter .renderTriangle ] else []) := by
      funext j
      rw [filter_frame_enter env .TRIANGLE _ j r hr1]
      rfl
    unfold main
    rw [filter_mainWith_closes _ .TRIANGLE env (k + 1) fuel hinit hwin hglad hn hb (by omega)
        (fun c hc => (hs c hc).2.2.2 r) rfl rfl rfl,
      hframe, filter_cleanup_enter, filter_setup_enter .TRIANGLE _ _ r hr2]
    simp
  refine ⟨?_, ?_, ?_, ?_, ?_, ?_, ?_, ?_⟩
  · unfold main
    rw [mainWith_closes .TRIANGLE env (k + 1) fuel hinit hwin hglad hn hb (by omega)]
  · unfold main
    rw [mainWith_closes .TRIANGLE env (k + 1) fuel hinit hwin hglad hn hb (by omega), hfr]
    rfl
  · simp [frame, processInput, hesc, render]
  · rw [List.countP_eq_length_filter,
      hcount .processInput (by decide) (Or.inr (Or.inl rfl))]
    simp [framesFrom_singleton]
  · rw [List.countP_eq_length_filter,
      hcount .renderTriangle (by decide) (Or.inr (Or.inr rfl))]
    simp [framesFrom_singleton]
  · rw [List.countP_eq_length_filter]
    unfold main
    rw [filter_mainWith_closes _ .TRIANGLE env (k + 1) fuel hinit hwin hglad hn hb (by omega)
        (fun c hc => (hs c hc).2.2.1) rfl rfl rfl,
      funext (fun j => filter_frame_swap env .TRIANGLE _ j), framesFrom_singleton,
      filter_cleanup_swap, filter_setup_swap]
    simp
  · rw [List.countP_eq_length_filter, hcount .cleanup (by decide) (Or.inl rfl)]
    simp [framesFrom_nil]
  · intro env' fuel'
    exact cleanup_entered_at_most_once .TRIANGLE env' fuel'

/-- Witness for C4: Escape pressed in frame 2 of `escapeAtTwo`. -/
theorem escape_ends_loop_after_current_frame_witness :
    closeFlag escapeAtTwo 2 = false ∧ escapeAtTwo.escapePressed 2 = true ∧
    (main escapeAtTwo 5).exit = some 0 ∧
    (main escapeAtTwo 5).calls.countP Call.isSwap = 2 + 1 ∧
    (main escapeAtTwo 5).calls.countP (Call.isEnter .cleanup) = 1 :=
  have h := escape_ends_loop_after_current_frame escapeAtTwo 2 5 rfl rfl rfl rfl rfl
    (by decide)
  ⟨rfl, rfl, h.1, h.2.2.2.2.2.1, h.2.2.2.2.2.2.1⟩

/-- C5: when start-up succeeds and the loop runs `N` frames before its
condition sees the close flag, the run of `main` (shape `TRIANGLE`) returns 0
and consists of one entry into `setupTriangle`, then `N` entries into
`renderTriangle`, each followed by the non-indexed draw of 3 vertices, then one
entry into `cleanup`; no other setup or render routine is entered and no other
draw is issued. -/
theorem triangle_run_end_to_end (env : Env) (N fuel : Nat)
    (hinit : env.glfwInitOk = true) (hwin : env.windowCreated = true)
    (hglad : env.gladLoaded = true) (hN : closeFlag env N = true)
    (hbefore : ∀ j, j < N → closeFlag env j = false) (hfuel : N ≤ fuel) :
    (main env fuel).exit = some 0 ∧
    (main env fuel).calls.filter (fun c => c.isLifecycle || c.isDraw)
      = .enter .setupTriangle
        :: (framesFrom (fun _ => [ .enter .renderTriangle, .glDrawArrays .GL_TRIANGLES 0 3 ]) 0 N
            ++ [ .enter .cleanup ]) ∧
    (main env fuel).calls.countP (Call.isEnter .setupTriangle) = 1 ∧
    (main env fuel).calls.countP (Call.isEnter .renderTriangle) = N ∧
    (main env fuel).calls.countP Call.isDraw = N ∧
    (main env fuel).calls.countP Call.isSwap = N ∧
    (main env fuel).calls.countP (Call.isEnter .cleanup) = 1 ∧
    (main env fuel).calls
      = startupCalls env ++ [ .shaderConstruct "shader_vs.glsl" "shader_fs.glsl" ]
        ++ (setupTriangle env.genName Globals.zero).2
        ++ framesFrom (fun j => .glfwWindowShouldClose false
              :: (frame env .TRIANGLE (setupTriangle env.genName Globals.zero).1 j false).2)
            0 N
        ++ [ .glfwWindowShouldClose true ]
        ++ cleanup env.programID (setupTriangle env.genName Globals.zero).1
        ++ [ .glfwDestroyWindow, .glfwTerminate ] := by
  have hs := startup_no_enter_draw_swap env
  have hfr : (fun j => Call.glfwWindowShouldClose false
        :: (frame env .TRIANGLE (setupTriangle env.genName Globals.zero).1 j false).2)
      = fun j => Call.glfwWindowShouldClose false
        :: frameActions env .TRIANGLE (setupTriangle env.genName Globals.zero).1 j := by
    funext j
    rw [frame_calls]
  have hseq : (main env fuel).calls.filter (fun c => c.isLifecycle || c.isDraw)
      = .enter .setupTriangle
        :: (framesFrom (fun _ => [ .enter .renderTriangle, .glDrawArrays .GL_TRIANGLES 0 3 ]) 0 N
            ++ [ .enter .cleanup ]) := by
    unfold main
    rw [filter_mainWith_closes _ .TRIANGLE env N fuel hinit hwin hglad hN hbefore hfuel
        (fun c hc => by simp [(hs c hc).1, (hs c hc).2.1]) rfl rfl rfl,
      funext (fun j => filter_frame_lifecycle_or_draw env .TRIANGLE _ j),
      filter_cleanup_lifecycle_or_draw, filter_setupTriangle_lifecycle_or_draw]
    rfl
  have henter : ∀ r, r ≠ .framebuffer_size_callback →
      (main env fuel).calls.filter (Call.isEnter r)
        = (setup .TRIANGLE env.genName Globals.zero).2.filter (Call.isEnter r)
          ++ framesFrom (fun _ => (if r = .processInput then [ Call.enter .processInput ] else [])
              ++ (if r = .renderTriangle then [ Call.enter .renderTriangle ] else [])) 0 N
          ++ (if r = .cleanup then [ .enter .cleanup ] else []) := by
    intro r hr1
    have hframe : (fun j => (Call.glfwWindowShouldClose false
          :: frameActions env .TRIANGLE (setup .TRIANGLE env.genName Globals.zero).1 j).filter
            (Call.isEnter r))
        = fun _ => (if r = .processInput then [ Call.enter .processInput ] else [])
              ++ (if r = .renderTriangle then [ Call.enter .renderTriangle ] else []) := by
      funext j
      rw [filter_frame_enter env .TRIANGLE _ j r hr1]
      rfl
    unfold main
    rw [filter_mainWith_closes _ .TRIANGLE env N fuel hinit hwin hglad hN hbefore hfuel
        (fun c hc => (hs c hc).2.2.2 r) rfl rfl rfl,
      hframe, filter_cleanup_enter]
  refine ⟨?_, hseq, ?_, ?_, ?_, ?_, ?_, ?_⟩
  · unfold main
    rw [mainWith_closes .TRIANGLE env N fuel hinit hwin hglad hN hbefore hfuel]
  · rw [List.countP_eq_length_filter, henter .setupTriangle (by decide),
      filter_setupTriangle_enter_self]
    simp [framesFrom_nil]
  · rw [List.countP_eq_length_filter, henter .renderTriangle (by decide),
      filter_setup_enter .TRIANGLE env.genName Globals.zero .renderTriangle
        (Or.inr (Or.inr rfl))]
    simp [framesFrom_singleton]
  · rw [List.countP_eq_length_filter]
    unfold main
    rw [filter_mainWith_closes _ .TRIANGLE env N fuel hinit hwin hglad hN hbefore hfuel
        (fun c hc => (hs c hc).2.1) rfl rfl rfl,
      funext (fun j => filter_frame_draw env .TRIANGLE _ j), framesFrom_singleton,
      filter_cleanup_draw, filter_setup_draw]
    simp
  · rw [List.countP_eq_length_filter]
    unfold main
    rw [filter_mainWith_closes _ .TRIANGLE env N fuel hinit hwin hglad hN hbefore hfuel
        (fun c hc => (hs c hc).2.2.1) rfl rfl rfl,
      funext (fun j => filter_frame_swap env .TRIANGLE _ j), framesFrom_singleton,
      filter_cleanup_swap, filter_setup_swap]
    simp
  · rw [List.countP_eq_length_filter, henter .cleanup (by decide),
      filter_setup_enter .TRIANGLE env.genName Globals.zero .cleanup (Or.inl rfl)]
    simp [framesFrom_nil]
  · unfold main
    rw [mainWith_closes .TRIANGLE env N fuel hinit hwin hglad hN hbefore hfuel, hfr]
    rfl

/-- Witness for C5: `escapeAtTwo` runs 3 frames. -/
theorem triangle_run_end_to_end_witness :
    closeFlag escapeAtTwo 3 = true ∧ (∀ j, j < 3 → closeFlag escapeAtTwo j = false) ∧
    (main escapeAtTwo 5).exit = some 0 ∧
    (main escapeAtTwo 5).calls.countP (Call.isEnter .renderTriangle) = 3 :=
  have h := triangle_run_end_to_end escapeAtTwo 3 5 rfl rfl rfl rfl (by decide) (by decide)
  ⟨rfl, by decide, h.1, h.2.2.2.1⟩

/-- C6 as stated fails: with a start-up that succeeds and nobody ever asking
to close, `main` does not return 0, however many frames it is given. -/
theorem main_without_close_request_never_returns :
    neverClose.glfwInitOk = true ∧ neverClose.windowCreated = true ∧
    neverClose.gladLoaded = true ∧
    ¬ ∃ fuel, (main neverClose fuel).exit = some 0 := by
  refine ⟨rfl, rfl, rfl, ?_⟩
  rintro ⟨fuel, h⟩
  obtain ⟨n, _, hn⟩ := (mainWith_exit_of_startup .TRIANGLE neverClose fuel rfl rfl rfl).1.1 h
  rw [closeFlag_neverClose n] at hn
  exact absurd hn (by decide)

/-- C6 amended: `main` returns -1 exactly when GLFW initialisation, window
creation or GL function loading fails, and then it returns at the first failing
step: the calls made are the start-up calls up to that step, its message and,
for a failed window creation, `glfwTerminate`; nothing after start-up happens.
When all three steps succeed `main` returns 0 as soon as a test of the loop
condition sees the close flag, and has not returned as long as none does. -/
theorem exit_code_reflects_startup (env : Env) (fuel : Nat) :
    ((main env fuel).exit = some (-1)
      ↔ (env.glfwInitOk = false ∨ env.windowCreated = false ∨ env.gladLoaded = false)) ∧
    (env.glfwInitOk = false →
      main env fuel
        = ⟨[ .glfwInit false, .print .cerr "Failed to initialize GLFW" ], some (-1)⟩) ∧
    (env.glfwInitOk = true → env.windowCreated = false →
      main env fuel
        = ⟨[ .glfwInit true,
             .glfwWindowHint (.GLFW_CONTEXT_VERSION_MAJOR 3),
             .glfwWindowHint (.GLFW_CONTEXT_VERSION_MINOR 3),
             .glfwWindowHint .GLFW_OPENGL_PROFILE_CORE ]
            ++ (if env.apple then [ .glfwWindowHint .GLFW_OPENGL_FORWARD_COMPAT_TRUE ] else [])
            ++ [ .glfwCreateWindow 800 600 "Hello Tatsulok" false,
                 .print .cout "Failed to create GLFW window",
                 .glfwTerminate ], some (-1)⟩) ∧
    (env.glfwInitOk = true → env.windowCreated = true → env.gladLoaded = false →
      main env fuel
        = ⟨[ .glfwInit true,
             .glfwWindowHint (.GLFW_CONTEXT_VERSION_MAJOR 3),
             .glfwWindowHint (.GLFW_CONTEXT_VERSION_MINOR 3),
             .glfwWindowHint .GLFW_OPENGL_PROFILE_CORE ]
            ++ (if env.apple then [ .glfwWindowHint .GLFW_OPENGL_FORWARD_COMPAT_TRUE ] else [])
            ++ [ .glfwCreateWindow 800 600 "Hello Tatsulok" true,
                 .glfwMakeContextCurrent,
                 .glfwSetFramebufferSizeCallback .framebuffer_size_callback,
                 .gladLoadGLLoader false,
                 .print .cout "Failed to initialize GLAD" ], some (-1)⟩) ∧
    ((env.glfwInitOk = false ∨ env.windowCreated = false ∨ env.gladLoaded = false) →
      (main env fuel).calls.all Call.isStartupStep = true) ∧
    (env.glfwInitOk = true → env.windowCreated = true → env.gladLoaded = true →
      ((main env fuel).exit = some 0 ↔ ∃ n, n ≤ fuel ∧ closeFlag env n = true) ∧
      ((main env fuel).exit = none ↔ ∀ n, n ≤ fuel → closeFlag env n = false)) := by
  unfold main
  refine ⟨?_, ?_, ?_, ?_, ?_, ?_⟩
  · cases hinit : env.glfwInitOk
    · rw [mainWith_init_fails _ env fuel hinit]
      simp
    cases hwin : env.windowCreated
    · rw [mainWith_window_fails _ env fuel hinit hwin]
      simp
    cases hglad : env.gladLoaded
    · rw [mainWith_glad_fails _ env fuel hinit hwin hglad]
      simp
    have h := mainWith_exit_of_startup .TRIANGLE env fuel hinit hwin hglad
    rcases closeFlag_first env fuel with ⟨n, hn, ht, _⟩ | hall
    · rw [h.1.2 ⟨n, hn, ht⟩]
      simp
    · rw [h.2.2 hall]
      simp
  · exact fun hinit => mainWith_init_fails _ env fuel hinit
  · exact fun hinit hwin => mainWith_window_fails _ env fuel hinit hwin
  · exact fun hinit hwin hglad => mainWith_glad_fails _ env fuel hinit hwin hglad
  · intro hfail
    cases hinit : env.glfwInitOk
    · rw [mainWith_init_fails _ env fuel hinit]
      rfl
    cases hwin : env.windowCreated
    · rw [mainWith_window_fails _ env fuel hinit hwin]
      cases env.apple <;> rfl
    cases hglad : env.gladLoaded
    · rw [mainWith_glad_fails _ env fuel hinit hwin hglad]
      cases env.apple <;> rfl
    simp [hinit, hwin, hglad] at hfail
  · exact fun hinit hwin hglad => mainWith_exit_of_startup .TRIANGLE env fuel hinit hwin hglad

/-- C8: in every execution of `main` that gets past start-up, the loop carries
out `n` frames, where `n` is the number of the first loop test that sees the
close flag, or the whole frame budget when no test within it does.  The calls
of the run are the start-up and setup calls, then for each of these `n` frames
the loop test followed by exactly the actions of `frameActions` in their order
(process input; clear colour (0.07, 0.13, 0.17, 1.0) and clear; shader use and
uniform "xOffset" set to 0.5; the render routine of the configured shape once;
swap buffers, then poll events), then the final loop test and, when it sees
the close flag, the shutdown.  The run enters `processInput` and the render
routine of the shape `n` times each and swaps buffers `n` times, so no frame,
the one raising the close flag included, skips or repeats a step.  The body
computed by `frame` is that list whatever the close flag is on entry. -/
theorem loop_iterations_follow_fixed_order (shape : ShapeType) (env : Env) (fuel : Nat)
    (hinit : env.glfwInitOk = true) (hwin : env.windowCreated = true)
    (hglad : env.gladLoaded = true) :
    (∃ n, n ≤ fuel ∧ (∀ j, j < n → closeFlag env j = false) ∧
      (closeFlag env n = true ∨ n = fuel) ∧
      (mainWith shape env fuel).calls
        = startupCalls env ++ [ .shaderConstruct "shader_vs.glsl" "shader_fs.glsl" ]
          ++ (setup shape env.genName Globals.zero).2
          ++ framesFrom (fun k => .glfwWindowShouldClose false
                :: frameActions env shape (setup shape env.genName Globals.zero).1 k) 0 n
          ++ (if closeFlag env n then
                [ .glfwWindowShouldClose true ]
                ++ cleanup env.programID (setup shape env.genName Globals.zero).1
                ++ [ .glfwDestroyWindow, .glfwTerminate ]
              else [ .glfwWindowShouldClose false ]) ∧
      (mainWith shape env fuel).calls.countP (Call.isEnter .processInput) = n ∧
      (mainWith shape env fuel).calls.countP (Call.isEnter (renderRoutine shape)) = n ∧
      (mainWith shape env fuel).calls.countP Call.isSwap = n) ∧
    (∀ (g : Globals) (k : Nat) (flag : Bool),
      (frame env shape g k flag).2 = frameActions env shape g k ∧
      (frameActions env shape g k).countP (Call.isEnter (renderRoutine shape)) = 1 ∧
      (frameActions env shape g k).filter Call.isDraw = [ drawCall shape ]) ∧
    main env fuel = mainWith .TRIANGLE env fuel := by
  have hs := startup_no_enter_draw_swap env
  have hnf : renderRoutine shape ≠ .framebuffer_size_callback := by
    cases shape <;> simp [renderRoutine]
  have hfin : (fun j => (Call.glfwWindowShouldClose false
        :: frameActions env shape (setup shape env.genName Globals.zero).1 j).filter
          (Call.isEnter .processInput)) = fun _ => [ Call.enter .processInput ] := by
    funext j
    rw [filter_frame_enter env shape _ j .processInput (by decide)]
    cases shape <;> simp [renderRoutine]
  have hfrn : (fun j => (Call.glfwWindowShouldClose false
        :: frameActions env shape (setup shape env.genName Globals.zero).1 j).filter
          (Call.isEnter (renderRoutine shape)))
      = fun _ => [ Call.enter (renderRoutine shape) ] := by
    funext j
    rw [filter_frame_enter env shape _ j (renderRoutine shape) hnf]
    cases shape <;> simp [renderRoutine]
  have hfsw : (fun j => (Call.glfwWindowShouldClose false
        :: frameActions env shape (setup shape env.genName Globals.zero).1 j).filter
          Call.isSwap) = fun _ => [ Call.glfwSwapBuffers ] :=
    funext (fun j => filter_frame_swap env shape _ j)
  have hcin : (cleanup env.programID (setup shape env.genName Globals.zero).1).filter
      (Call.isEnter .processInput) = [] := by
    rw [filter_cleanup_enter]
    simp
  have hcrn : (cleanup env.programID (setup shape env.genName Globals.zero).1).filter
      (Call.isEnter (renderRoutine shape)) = [] := by
    rw [filter_cleanup_enter]
    cases shape <;> simp [renderRoutine]
  have hsin := filter_setup_enter shape env.genName Globals.zero .processInput
    (Or.inr (Or.inl rfl))
  have hsrn := filter_setup_enter shape env.genName Globals.zero (renderRoutine shape)
    (Or.inr (Or.inr rfl))
  refine ⟨?_, ?_, rfl⟩
  · rcases closeFlag_first env fuel with ⟨n, hn, ht, hb⟩ | hall
    · refine ⟨n, hn, hb, Or.inl ht, ?_, ?_, ?_, ?_⟩
      · rw [mainWith_closes shape env n fuel hinit hwin hglad ht hb hn, ht]
        simp
      · rw [List.countP_eq_length_filter,
          filter_mainWith_closes _ shape env n fuel hinit hwin hglad ht hb hn
            (fun c hc => (hs c hc).2.2.2 _) rfl rfl rfl,
          hfin, framesFrom_singleton, hcin, hsin]
        simp
      · rw [List.countP_eq_length_filter,
          filter_mainWith_closes _ shape env n fuel hinit hwin hglad ht hb hn
            (fun c hc => (hs c hc).2.2.2 _) rfl rfl rfl,
          hfrn, framesFrom_singleton, hcrn, hsrn]
        simp
      · rw [List.countP_eq_length_filter,
          filter_mainWith_closes _ shape env n fuel hinit hwin hglad ht hb hn
            (fun c hc => (hs c hc).2.2.1) rfl rfl rfl,
          hfsw, framesFrom_singleton, filter_cleanup_swap, filter_setup_swap]
        simp
    · refine ⟨fuel, Nat.le_refl _, fun j hj => hall j (by omega), Or.inr rfl, ?_, ?_, ?_, ?_⟩
      · rw [mainWith_running shape env fuel hinit hwin hglad hall, hall fuel (Nat.le_refl _)]
        simp
      · rw [List.countP_eq_length_filter,
          filter_mainWith_running _ shape env fuel hinit hwin hglad hall
            (fun c hc => (hs c hc).2.2.2 _) rfl,
          hfin, framesFrom_singleton, hsin]
        simp
      · rw [List.countP_eq_length_filter,
          filter_mainWith_running _ shape env fuel hinit hwin hglad hall
            (fun c hc => (hs c hc).2.2.2 _) rfl,
          hfrn, framesFrom_singleton, hsrn]
        simp
      · rw [List.countP_eq_length_filter,
          filter_mainWith_running _ shape env fuel hinit hwin hglad hall
            (fun c hc => (hs c hc).2.2.1) rfl,
          hfsw, framesFrom_singleton, filter_setup_swap]
        simp
  · intro g k flag
    refine ⟨frame_calls env shape g k flag, ?_, ?_⟩
    · have h := filter_frame_enter env shape g k (renderRoutine shape) hnf
      rw [List.countP_eq_length_filter]
      have h' : (frameActions env shape g k).filter (Call.isEnter (renderRoutine shape))
          = (if renderRoutine shape = .processInput then [ Call.enter .processInput ] else [])
            ++ [ .enter (renderRoutine shape) ] := by
        simpa [List.filter_cons, Call.isEnter] using h
      rw [h']
      cases shape <;> simp [renderRoutine]
    · have h := filter_frame_draw env shape g k
      simpa [List.filter_cons, Call.isDraw] using h

/-- Witness for C8: the run of `escapeAtTwo` with shape `TRIANGLE` and a budget
of 5 frames carries out exactly 3 frames, each the loop test followed by
`frameActions`, and then shuts down. -/
theorem loop_iterations_follow_fixed_order_witness :
    escapeAtTwo.glfwInitOk = true ∧ escapeAtTwo.windowCreated = true ∧
    escapeAtTwo.gladLoaded = true ∧
    (mainWith .TRIANGLE escapeAtTwo 5).calls
      = startupCalls escapeAtTwo ++ [ .shaderConstruct "shader_vs.glsl" "shader_fs.glsl" ]
        ++ (setup .TRIANGLE escapeAtTwo.genName Globals.zero).2
        ++ framesFrom (fun k => .glfwWindowShouldClose false
              :: frameActions escapeAtTwo .TRIANGLE
                  (setup .TRIANGLE escapeAtTwo.genName Globals.zero).1 k) 0 3
        ++ ([ .glfwWindowShouldClose true ]
            ++ cleanup escapeAtTwo.programID (setup .TRIANGLE escapeAtTwo.genName Globals.zero).1
            ++ [ .glfwDestroyWindow, .glfwTerminate ]) ∧
    (mainWith .TRIANGLE escapeAtTwo 5).calls.countP (Call.isEnter .processInput) = 3 ∧
    (mainWith .TRIANGLE escapeAtTwo 5).calls.countP (Call.isEnter .renderTriangle) = 3 ∧
    (mainWith .TRIANGLE escapeAtTwo 5).calls.countP Call.isSwap = 3 := by
  obtain ⟨n, hn, hb, hpin, hcalls, hin, hrn, hsw⟩ :=
    (loop_iterations_follow_fixed_order .TRIANGLE escapeAtTwo 5 rfl rfl rfl).1
  have h3 : closeFlag escapeAtTwo 3 = true := rfl
  have hn3 : n = 3 := by
    rcases Nat.lt_trichotomy n 3 with hlt | heq | hgt
    · exfalso
      rcases hpin with hp | hp
      · have hcases : n = 0 ∨ n = 1 ∨ n = 2 := by omega
        rcases hcases with rfl | rfl | rfl <;> exact absurd hp (by decide)
      · omega
    · exact heq
    · exact absurd (hb 3 hgt) (by rw [h3]; decide)
  subst hn3
  rw [h3] at hcalls
  exact ⟨rfl, rfl, rfl, hcalls, hin, hrn, hsw⟩

end OpenGLLearn
